import Mathlib

/-!
Verification of the RORB CATG / STM editor parser-writer pair.

The definitions below are a shallow embedding of the two format engines in
src/editors/rorb_stm_editor.py and src/editors/rorb_catg_editor.py.
Files are modelled as lists of lines (each line a String without newline
characters), matching the line-splitting done by both parsers.
Python float fields that are only stored for display are kept as their
source tokens; the success or failure of the float conversion is modelled
by a decimal-literal parser (exponents and special values are not used by
any statement proved here).
-/

namespace Rorb

/-! Python string primitives, modelled over lists of characters.
Whitespace is the ASCII whitespace set recognised by str.strip and by
the regex class backslash-s on ASCII input. -/

def isPySpace (c : Char) : Bool :=
  c == ' ' || c == '\t' || c == '\n' || c == '\r' || c == '\x0b' || c == '\x0c'

def pyStripL (cs : List Char) : List Char :=
  ((cs.dropWhile isPySpace).reverse.dropWhile isPySpace).reverse

def pyStrip (s : String) : String :=
  (pyStripL s.toList).asString

/-- Python s.rstrip(set): drop characters of the set from the right end. -/
def stripSetR (cs : List Char) (set : List Char) : List Char :=
  (cs.reverse.dropWhile (fun c => set.contains c)).reverse

/-- Python s.lstrip(set): drop characters of the set from the left end. -/
def stripSetL (cs : List Char) (set : List Char) : List Char :=
  cs.dropWhile (fun c => set.contains c)

/-- Python s.startswith(single character). -/
def pyStartsWith (s : String) (c : Char) : Bool :=
  match s.toList with
  | [] => false
  | a :: _ => a == c

/-- Python s.split(single delimiter character); keeps empty pieces. -/
def splitOnChar (cs : List Char) (d : Char) : List (List Char) :=
  match cs with
  | [] => [[]]
  | c :: rest =>
    match splitOnChar rest d with
    | [] => [[]]
    | g :: gs => if c == d then [] :: g :: gs else (c :: g) :: gs

/-- First index where pat occurs as a contiguous sublist, like str.find. -/
def idxOfSub (cs pat : List Char) (i : Nat) : Option Nat :=
  match cs with
  | [] => if pat.isEmpty then some i else none
  | _ :: rest =>
    if pat.isPrefixOf cs then some i else idxOfSub rest pat (i + 1)

def hasSub (s : String) (pat : String) : Bool :=
  (idxOfSub s.toList pat.toList 0).isSome

/-- Numeric value of a list of decimal digit characters. -/
def digitsVal (ds : List Char) : Nat :=
  ds.foldl (fun a c => a * 10 + (c.toNat - 48)) 0

def allDigits (ds : List Char) : Bool :=
  !ds.isEmpty && ds.all Char.isDigit

/-- Python int(s): optional sign and a nonempty digit run, whitespace
stripped (digit-group underscores are not modelled). -/
def pyInt (s : String) : Option Int :=
  let cs := pyStripL s.toList
  match cs with
  | '+' :: ds => if allDigits ds then some (digitsVal ds : Int) else none
  | '-' :: ds => if allDigits ds then some (-(digitsVal ds : Int)) else none
  | ds => if allDigits ds then some (digitsVal ds : Int) else none

/-- Python int(float(s)) on a decimal literal: optional sign, digits,
optional dot and fraction digits; truncates toward zero.  Returns none
exactly when float(s) raises for such literals. -/
def pyIntOfFloat (s : String) : Option Int :=
  let cs := pyStripL s.toList
  let core := fun (ds : List Char) (sign : Bool) =>
    let ip := ds.takeWhile Char.isDigit
    let rest := ds.drop ip.length
    let ok :=
      match rest with
      | [] => !ip.isEmpty
      | '.' :: fs => fs.all Char.isDigit && (!ip.isEmpty || !fs.isEmpty)
      | _ => false
    if ok then
      some (if sign then -(digitsVal ip : Int) else (digitsVal ip : Int))
    else none
  match cs with
  | '+' :: ds => core ds false
  | '-' :: ds => core ds true
  | ds => core ds false

/-- Python s.ljust(w): pad on the right with spaces up to width w. -/
def ljust (s : String) (w : Nat) : String :=
  s ++ (List.replicate (w - s.length) ' ').asString

/-- Python list slice l[a:b] for nonnegative bounds. -/
def pySlice (l : List String) (a b : Nat) : List String :=
  (l.drop a).take (b - a)

/-- Python list.insert(pos, x). -/
def pyInsert {α : Type} (l : List α) (pos : Nat) (x : α) : List α :=
  l.take pos ++ x :: l.drop pos

/-! STM data model: class Section of rorb_stm_editor.py.
The field prefix_line of the source is named pfx_line here. -/

structure Section where
  section_type : String
  delimiter : Option String := none
  terminator_style : String := "none"
  comment_lines : List String := []
  pfx_line : String := ""
  suffix_lines : List String := []
  data : List String := []
  inline_comment : String := ""
  raw_text : String := ""
  label : String := ""
deriving DecidableEq

/-! STM parser helpers (STMParser static methods). -/

/-- STMParser normalise-comment: ensure the canonical C-space prefix. -/
def normalise_comment (line : String) : String :=
  match line.toList with
  | 'C' :: rest =>
    match rest with
    | [] => "C "
    | c :: _ => if c == ' ' then line else "C " ++ rest.asString
  | _ => line

/-- One attempt of the sentinel regex at the current position: after an
optional consumed delimiter, greedy whitespace, then the -99 token with a
whitespace, delimiter or end-of-line boundary on the right.  Returns the
offset of the minus sign when the attempt succeeds. -/
def sentinelTail (cs : List Char) : Option Nat :=
  let ws := cs.takeWhile isPySpace
  let rest := cs.drop ws.length
  match rest with
  | '-' :: '9' :: '9' :: tail =>
    match tail with
    | [] => some ws.length
    | c :: _ => if isPySpace c || c == ',' then some ws.length else none
  | _ => none

/-- Leftmost match of the sentinel regex of strip-after-99: returns the
match start and the index of the -99 token. -/
def findSentinel (cs : List Char) (p : Nat) (first : Bool) : Option (Nat × Nat) :=
  let delimCase :=
    match cs with
    | c :: rest =>
      if c == ',' || c == '\t' then
        match sentinelTail rest with
        | some off => some (p, p + 1 + off)
        | none => none
      else none
    | [] => none
  let here :=
    if first then
      match sentinelTail cs with
      | some off => some (p, p + off)
      | none => delimCase
    else delimCase
  match here with
  | some r => some r
  | none =>
    match cs with
    | [] => none
    | _ :: rest => findSentinel rest (p + 1) false

/-- STMParser strip-after-99: split a line at the -99 sentinel into the
data part, the trailing text and a found flag. -/
def strip_after_99 (line : String) : String × String × Bool :=
  let cs := line.toList
  match findSentinel cs 0 true with
  | none => (line, "", false)
  | some (p, pos99) =>
    let data_part := (stripSetR (cs.take p) [',', ' ', '\t']).asString
    let trailing :=
      (stripSetL (pyStripL (cs.drop (pos99 + 3))) [',', ' ', '\t']).asString
    (data_part, trailing, true)

/-- STMParser split-comma: split a comma line, strip pieces, drop empty
pieces and the sentinel. -/
def split_comma (line : String) : List String :=
  let dp := (strip_after_99 line).1
  ((splitOnChar dp.toList ',').map (fun p => (pyStripL p).asString)).filter
    (fun p => p != "" && p != "-99")

/-- STMParser split-data-line: auto-detect the delimiter and split. -/
def split_data_line (line : String) : List String × String × Bool :=
  let delim := if line.toList.contains '\t' then "\t" else ","
  let r := strip_after_99 line
  let dchar := if line.toList.contains '\t' then '\t' else ','
  let parts := ((splitOnChar r.1.toList dchar).map
    (fun p => (pyStripL p).asString)).filter (fun p => p != "")
  (parts.filter (fun v => v != "-99"), delim, r.2.2)

/-! STM parser (STMParser.parse).  The Python read cursor over the cleaned
line list is modelled by consuming a list of lines; each block is one
function.  Errors raised by the float conversions of the storm-parameter
tokens are modelled by the Except error channel. -/

/-- Consume leading comment lines, normalising each (parse comment loops). -/
def takeComments (ls : List String) : List String × List String :=
  match ls with
  | [] => ([], [])
  | l :: rest =>
    if pyStartsWith l 'C' then
      let r := takeComments rest
      (normalise_comment l :: r.1, r.2)
    else ([], l :: rest)

/-- Block 2: build the storm-parameters section from its data line. -/
def parse_storm_params_line (comments : List String) (line : String) : Section :=
  let r := strip_after_99 line
  let data := ((splitOnChar r.1.toList ',').map
    (fun p => (pyStripL p).asString)).filter (fun p => p != "")
  { section_type := "storm_params", delimiter := some ","
    terminator_style := "inline", comment_lines := comments
    data := data, inline_comment := r.2.1, label := "Storm Parameters" }

/-- Block 3: build the burst-time-ranges section from its data line.
A plain substring search for -99 is used here, not the sentinel regex. -/
def parse_burst_line (comments : List String) (line : String) : Section :=
  if hasSub line "-99" then
    let cs := line.toList
    let pos := (idxOfSub cs ['-', '9', '9'] 0).getD 0
    let inline_c := (pyStripL (cs.drop (pos + 3))).asString
    let dp := (stripSetR (pyStripL (cs.take pos)) [',']).asString
    let parts := ((splitOnChar dp.toList ',').map
      (fun p => (pyStripL p).asString)).filter (fun p => p != "")
    { section_type := "burst_ranges", delimiter := some ","
      terminator_style := "inline", comment_lines := comments
      data := parts, inline_comment := inline_c, label := "Burst Time Ranges" }
  else
    { section_type := "burst_ranges", delimiter := some ","
      terminator_style := "none", comment_lines := comments
      data := split_comma line, inline_comment := "", label := "Burst Time Ranges" }

/-- Block 4: the pluviograph-data loop; returns sections and leftover lines. -/
def parsePluvios (n : Nat) (ls : List String) (pidx : Nat) :
    List Section × List String :=
  match n with
  | 0 => ([], ls)
  | n + 1 =>
    match ls with
    | l1 :: l2 :: rest =>
      let r := split_data_line l2
      let sec : Section :=
        { section_type := "pluvio_data", delimiter := some r.2.1
          terminator_style := "inline", pfx_line := pyStrip l1
          data := r.1, label := "Pluviograph " ++ toString (pidx + 1) }
      let rec' := parsePluvios n rest (pidx + 1)
      (sec :: rec'.1, rec'.2)
    | _ => ([], ls)

/-- Terminator detection shared by blocks 5, 6 and 7b: inline sentinel,
a sentinel alone on the next line, or none. -/
def detectTerm (has99 : Bool) (rest : List String) : String × List String :=
  if has99 then ("inline", rest)
  else
    match rest with
    | nl :: rest2 => if pyStrip nl == "-99" then ("own_line", rest2) else ("none", nl :: rest2)
    | [] => ("none", [])

/-- Blocks 5 and 6: the sub-area-rainfall and pluviograph-reference loops,
parameterised by section type and label base. -/
def parseBurstBlocks (ty lbase : String) (n : Nat) (ls : List String)
    (b : Nat) : List Section × List String :=
  match n with
  | 0 => ([], ls)
  | n + 1 =>
    let c := takeComments ls
    match c.2 with
    | [] => ([], [])
    | dl :: rest =>
      let r := split_data_line dl
      let t := detectTerm r.2.2 rest
      let sec : Section :=
        { section_type := ty, delimiter := some r.2.1
          terminator_style := t.1, comment_lines := c.1
          data := r.1, label := lbase ++ toString (b + 1) }
      let rec' := parseBurstBlocks ty lbase n t.2 (b + 1)
      (sec :: rec'.1, rec'.2)

/-- Hydrograph station short label used for display. -/
def hydroShort (station : String) : String :=
  let short :=
    if station.toList.contains '|' then
      match splitOnChar station.toList '|' with
      | first :: _ => (pyStripL first).asString
      | [] => station
    else station
  if short.length > 45 then (short.toList.take 42).asString ++ "..." else short

/-- Block 7b: the hydrograph-station loop. -/
def parseHydros (n : Nat) (ls : List String) : List Section × List String :=
  match n with
  | 0 => ([], ls)
  | n + 1 =>
    match ls with
    | [] => ([], [])
    | l1 :: ls1 =>
      let station := pyStrip l1
      match ls1 with
      | [] => ([], [])
      | dl :: rest =>
        let r := split_data_line dl
        let t := detectTerm r.2.2 rest
        let sfx :=
          match t.2 with
          | nl :: _ =>
            if nl.toList.contains ',' && !pyStartsWith nl 'C' && pyStrip nl != "-99"
            then [nl] else []
          | [] => []
        let rest2 := t.2.drop sfx.length
        let sec : Section :=
          { section_type := "hydro_station", delimiter := some r.2.1
            terminator_style := t.1, pfx_line := station
            suffix_lines := sfx, data := r.1
            label := "Hydro: " ++ hydroShort station }
        let rec' := parseHydros n rest2
        (sec :: rec'.1, rec'.2)

/-- Result of STMParser.parse: the section list plus the structural values
read from the storm-parameters data (the time-increment float is checked
for convertibility but its value is not retained by any claim). -/
structure StmDoc where
  sections : List Section
  burst_count : Int := 0
  pluvio_count : Int := 0
  duration : Int := 0
deriving DecidableEq

/-- Extraction of the structural counts from the storm-parameter data,
with the ValueError behaviour of the int and float conversions: the
time-increment token is converted only for its side effect of failing. -/
def stormCounts (data : List String) : Except Unit (Int × Int × Int) := do
  if data.length > 0 && (pyIntOfFloat (data.getD 0 "")).isNone then
    throw ()
  else
    let dur ← if data.length > 1 then
        match pyIntOfFloat (data.getD 1 "") with
        | some v => pure v
        | none => throw ()
      else pure 0
    let bc ← if data.length > 2 then
        match pyIntOfFloat (data.getD 2 "") with
        | some v => pure v
        | none => throw ()
      else pure 0
    let pc ← if data.length > 3 then
        match pyIntOfFloat (data.getD 3 "") with
        | some v => pure v
        | none => throw ()
      else pure 0
    pure (bc, pc, dur)

/-- Block 1: one raw free-text line (event header or model mode). -/
def parseFreeLine (ty lbl : String) (ls : List String) :
    List Section × List String :=
  match ls with
  | [] => ([], [])
  | l :: rest => ([{ section_type := ty, raw_text := l, label := lbl }], rest)

/-- Block 2: leading comments, then the storm-parameters data line. -/
def parseStormBlock (ls : List String) :
    Except Unit (List Section × (Int × Int × Int) × List String) :=
  let c2 := takeComments ls
  match c2.2 with
  | [] => .ok ([], (0, 0, 0), [])
  | line :: rest => do
    let sec := parse_storm_params_line c2.1 line
    let cs ← stormCounts sec.data
    pure ([sec], cs, rest)

/-- Block 3: leading comments, then the burst-time-ranges data line. -/
def parseBurstRangesBlock (ls : List String) : List Section × List String :=
  let c3 := takeComments ls
  match c3.2 with
  | [] => ([], [])
  | line :: rest => ([parse_burst_line c3.1 line], rest)

/-- Block 7: leading comments, then the hydrograph-time-ranges line; the
station count is inferred as half the value count. -/
def parseHydroHeaderBlock (ls : List String) :
    List Section × Nat × List String :=
  let c7 := takeComments ls
  match c7.2 with
  | [] => ([], 0, [])
  | line :: rest =>
    let parts := split_comma line
    ([{ section_type := "hydro_time_ranges", delimiter := some ","
        terminator_style := "inline", comment_lines := c7.1
        data := parts, label := "Hydrograph Time Ranges" }],
     parts.length / 2, rest)

/-- Trailer: any remaining lines, stored verbatim as free text. -/
def parseTrailerBlock (ls : List String) : List Section :=
  match ls with
  | [] => []
  | rem => [{ section_type := "trailer"
              raw_text := String.intercalate "\n" rem, label := "File Trailer" }]

/-- STMParser.parse over an already cleaned line list (file read and
trailing-blank-line removal happen before this point in the source). -/
def stmParseLines (lines : List String) : Except Unit StmDoc := do
  let b1 := parseFreeLine "event_header" "Event Description" lines
  let b1b := parseFreeLine "model_mode" "Model Mode" b1.2
  let r2 ← parseStormBlock b1b.2
  let (bc, pc, dur) := r2.2.1
  let r3 := parseBurstRangesBlock r2.2.2
  let p4 := parsePluvios pc.toNat r3.2 0
  let p5 := parseBurstBlocks "subarea_rain" "Sub-area Rainfall - Burst " bc.toNat p4.2 0
  let p6 := parseBurstBlocks "pluvio_ref" "Pluviograph Refs - Burst " bc.toNat p5.2 0
  let r7 := parseHydroHeaderBlock p6.2
  let p7 := parseHydros r7.2.1 r7.2.2
  let s8 := parseTrailerBlock p7.2
  pure { sections := b1.1 ++ b1b.1 ++ r2.1 ++ r3.1 ++ p4.1 ++ p5.1 ++ p6.1 ++
           r7.1 ++ p7.1 ++ s8
         burst_count := bc, pluvio_count := pc, duration := dur }

/-! STM writer (STMWriter): re-serialise sections into output lines.
The file on disk is each returned line followed by a newline. -/

/-- STMWriter join-sep: the join separator for the stored delimiter. -/
def join_sep (sec : Section) : String :=
  match sec.delimiter with
  | some d => if d == "," then ", " else if d == "" then "\t" else d
  | none => "\t"

/-- STMWriter write-data-line: data plus terminator per section style. -/
def write_data_line (sec : Section) : List String :=
  let sep := join_sep sec
  let data_str := String.intercalate sep sec.data
  if sec.terminator_style == "inline" then [data_str ++ sep ++ "-99"]
  else if sec.terminator_style == "own_line" then [data_str, "-99"]
  else [data_str ++ ","]

/-- The lines STMWriter.write emits for one section. -/
def writeSection (sec : Section) : List String :=
  let st := sec.section_type
  if st == "event_header" || st == "model_mode" then [sec.raw_text]
  else if st == "storm_params" then
    let sep := join_sep sec
    let line := String.intercalate sep sec.data ++ sep ++ "-99"
    let line := if sec.inline_comment != "" then line ++ " " ++ sec.inline_comment else line
    sec.comment_lines ++ [line]
  else if st == "burst_ranges" then
    let sep := join_sep sec
    let line :=
      if sec.terminator_style == "inline" then
        let l := String.intercalate sep sec.data ++ sep ++ "-99"
        if sec.inline_comment != "" then l ++ " " ++ sec.inline_comment else l
      else String.intercalate sep sec.data ++ ","
    sec.comment_lines ++ [line]
  else if st == "pluvio_data" then
    sec.pfx_line :: write_data_line sec
  else if st == "subarea_rain" || st == "pluvio_ref" then
    sec.comment_lines ++ write_data_line sec
  else if st == "hydro_time_ranges" then
    sec.comment_lines ++ [String.intercalate "," sec.data ++ ",-99"]
  else if st == "hydro_station" then
    sec.pfx_line :: write_data_line sec ++
      sec.suffix_lines.filter (fun l => pyStrip l != "")
  else if st == "trailer" then
    (splitOnChar sec.raw_text.toList '\n').map List.asString
  else []

/-- STMWriter.write: all output lines of the file. -/
def stmWrite (sections : List Section) : List String :=
  (sections.map writeSection).flatten

/-! STM dialog operations: section management of STMEditorDialog. -/

def SECTION_ORDER : List String :=
  ["event_header", "model_mode", "storm_params", "burst_ranges",
   "pluvio_data", "subarea_rain", "pluvio_ref",
   "hydro_time_ranges", "hydro_station", "trailer"]

def flIAux (secs : List Section) (t : String) (i : Nat) (acc : Int) : Int :=
  match secs with
  | [] => acc
  | s :: rest => flIAux rest t (i + 1) (if s.section_type == t then (i : Int) else acc)

/-- Dialog find-last-index: index of the last section of a type, or -1. -/
def find_last_index (secs : List Section) (t : String) : Int :=
  flIAux secs t 0 (-1)

def fipPrev (secs : List Section) : List String → Nat
  | [] => secs.length
  | u :: us =>
    let l := find_last_index secs u
    if l ≥ 0 then l.toNat + 1 else fipPrev secs us

/-- Dialog find-insert-pos: position at which a new section of the given
type is inserted to keep the category ordering. -/
def find_insert_pos (secs : List Section) (t : String) : Nat :=
  let last_same := find_last_index secs t
  if last_same ≥ 0 then last_same.toNat + 1
  else
    let type_pos := ((SECTION_ORDER.indexOf? t).getD (SECTION_ORDER.length - 1))
    fipPrev secs ((SECTION_ORDER.take type_pos).reverse)

/-- Number of sections of a type (the sum-generator counts in the source). -/
def countType (secs : List Section) (t : String) : Nat :=
  secs.countP (fun s => s.section_type == t)

/-- First section satisfying a predicate (the for-break search loops). -/
def firstWith (p : Section → Bool) (secs : List Section) : Option Section :=
  secs.find? p

/-- Update the first section satisfying a predicate, in place. -/
def mapFirst (p : Section → Bool) (f : Section → Section) :
    List Section → List Section
  | [] => []
  | s :: rest => if p s then f s :: rest else s :: mapFirst p f rest

def isType (t : String) : Section → Bool := fun s => s.section_type == t

/-- The relabel loops of sync-storm-params: ordinal labels per type. -/
def relabelLoop (t base : String) (b : Nat) : List Section → List Section
  | [] => []
  | s :: rest =>
    if s.section_type == t then
      { s with label := base ++ toString (b + 1) } :: relabelLoop t base (b + 1) rest
    else s :: relabelLoop t base b rest

/-- Pad the storm-parameter data list to five values with ones. -/
def padTo5 (data : List String) : List String :=
  data ++ List.replicate (5 - data.length) "1"

/-- Dialog sync-storm-params: recount sections and rewrite the burst and
pluviograph counts in the storm-parameters data, then relabel. -/
def sync_storm_params (secs : List Section) : List Section :=
  match firstWith (isType "storm_params") secs with
  | none => secs
  | some _ =>
    let pluvio_count := countType secs "pluvio_data"
    let burst_count := countType secs "subarea_rain"
    let secs := mapFirst (isType "storm_params")
      (fun sp => { sp with data :=
        ((padTo5 sp.data).set 2 (toString burst_count)).set 3 (toString pluvio_count) })
      secs
    let secs := relabelLoop "subarea_rain" "Sub-area Rainfall - Burst " 0 secs
    relabelLoop "pluvio_ref" "Pluviograph Refs - Burst " 0 secs

/-! Dialog sync-sections-to-params: count-driven resize.  The while loops
of the source run a number of iterations that is determined before the
loop starts (the counters move by one toward the fixed target each pass),
so they are translated to structurally recursive loops on that count. -/

/-- Add pluviograph-data sections until the target count is reached. -/
def addPluviosLoop (dflt : List String) : Nat → Nat → List Section → List Section
  | 0, _, secs => secs
  | f + 1, cur, secs =>
    let cur' := cur + 1
    let new_sec : Section :=
      { section_type := "pluvio_data", delimiter := some ","
        terminator_style := "inline", pfx_line := "Pluvio_" ++ toString cur'
        data := dflt, label := "Pluviograph " ++ toString cur' }
    addPluviosLoop dflt f cur' (pyInsert secs (find_insert_pos secs "pluvio_data") new_sec)

/-- Remove pluviograph-data sections from the end until the target count. -/
def removeTypeLoop (t : String) : Nat → List Section → List Section
  | 0, secs => secs
  | f + 1, secs =>
    let i := find_last_index secs t
    removeTypeLoop t f (if i ≥ 0 then secs.eraseIdx i.toNat else secs)

/-- Add paired sub-area-rainfall and pluviograph-reference sections. -/
def addBurstsLoop (dsa dpr : List String) : Nat → Nat → List Section → List Section
  | 0, _, secs => secs
  | f + 1, cur, secs =>
    let cur' := cur + 1
    let sa : Section :=
      { section_type := "subarea_rain", delimiter := some ","
        terminator_style := "inline"
        comment_lines := ["C Sub-area rainfall for Burst " ++ toString cur']
        data := dsa, label := "Sub-area Rainfall - Burst " ++ toString cur' }
    let secs := pyInsert secs (find_insert_pos secs "subarea_rain") sa
    let pr : Section :=
      { section_type := "pluvio_ref", delimiter := some ","
        terminator_style := "inline"
        comment_lines := ["C Pluviograph references for Burst " ++ toString cur']
        data := dpr, label := "Pluviograph Refs - Burst " ++ toString cur' }
    let secs := pyInsert secs (find_insert_pos secs "pluvio_ref") pr
    addBurstsLoop dsa dpr f cur' secs

/-- Remove the last sub-area-rainfall and pluviograph-reference pair. -/
def removeBurstsLoop : Nat → List Section → List Section
  | 0, secs => secs
  | f + 1, secs =>
    let i := find_last_index secs "subarea_rain"
    let secs := if i ≥ 0 then secs.eraseIdx i.toNat else secs
    let j := find_last_index secs "pluvio_ref"
    let secs := if j ≥ 0 then secs.eraseIdx j.toNat else secs
    removeBurstsLoop f secs

/-- Grow the burst-ranges data two values at a time up to the needed count. -/
def growPairs (needed : Nat) : Nat → List String → List String
  | 0, d => d
  | f + 1, d =>
    if d.length < needed then growPairs needed f (d ++ ["0", "0"]) else d

/-- Shrink the burst-ranges data two values at a time down to the needed count. -/
def shrinkPairs (needed : Nat) : Nat → List String → List String
  | 0, d => d
  | f + 1, d =>
    if needed < d.length && 2 ≤ d.length then
      shrinkPairs needed f (d.dropLast.dropLast)
    else d

/-- The burst-ranges length adjustment of sync-sections-to-params. -/
def adjustBurstRanges (needed : Nat) (d : List String) : List String :=
  let g := growPairs needed (needed - d.length) d
  shrinkPairs needed g.length g

/-- The default data shapes cloned from the first existing section of each
type that has nonempty data. -/
def defaultData (secs : List Section) (t : String) (fill : String)
    (fallback : List String) : List String :=
  match firstWith (fun s => s.section_type == t && !s.data.isEmpty) secs with
  | some s => List.replicate s.data.length fill
  | none => fallback

/-- Dialog sync-sections-to-params: resize the document to the burst and
pluviograph counts stored in the storm-parameters data. -/
def sync_sections_to_params (secs : List Section) : List Section :=
  match firstWith (isType "storm_params") secs with
  | none => secs
  | some sp =>
    if sp.data.length < 4 then secs
    else
      match pyInt (sp.data.getD 2 "") with
      | none => secs
      | some tb =>
        match pyInt (sp.data.getD 3 "") with
        | none => secs
        | some tp =>
          let target_bursts := (min (max tb 0) 200).toNat
          let target_pluvios := (min (max tp 0) 500).toNat
          let dflt_pluvio := defaultData secs "pluvio_data" "0" ["0"]
          let dflt_sa := defaultData secs "subarea_rain" "0" ["1.0"]
          let dflt_pr := defaultData secs "pluvio_ref" "1" ["1"]
          let cur_pluvios := countType secs "pluvio_data"
          let secs := addPluviosLoop dflt_pluvio (target_pluvios - cur_pluvios)
            cur_pluvios secs
          let secs := removeTypeLoop "pluvio_data" (cur_pluvios - target_pluvios) secs
          let cur_bursts := countType secs "subarea_rain"
          let secs := addBurstsLoop dflt_sa dflt_pr (target_bursts - cur_bursts)
            cur_bursts secs
          let secs := removeBurstsLoop (cur_bursts - target_bursts) secs
          let secs := mapFirst (isType "burst_ranges")
            (fun br => { br with data := adjustBurstRanges (target_bursts * 2) br.data })
            secs
          sync_storm_params secs

/-- Dialog add-subarea-burst-sections: insert a paired sub-area-rainfall
and pluviograph-reference section, extend the burst ranges by one pair and
re-run the storm-parameter count sync. -/
def add_subarea_burst_sections (secs : List Section) : List Section :=
  let burst_count := countType secs "subarea_rain"
  let new_burst_num := burst_count + 1
  let dflt_sa := defaultData secs "subarea_rain" "0" ["1.0"]
  let dflt_pr := defaultData secs "pluvio_ref" "1" ["1"]
  let sa : Section :=
    { section_type := "subarea_rain", delimiter := some ","
      terminator_style := "inline"
      comment_lines := ["C Sub-area rainfall for Burst " ++ toString new_burst_num]
      data := dflt_sa, label := "Sub-area Rainfall - Burst " ++ toString new_burst_num }
  let pr : Section :=
    { section_type := "pluvio_ref", delimiter := some ","
      terminator_style := "inline"
      comment_lines := ["C Pluviograph references for Burst " ++ toString new_burst_num]
      data := dflt_pr, label := "Pluviograph Refs - Burst " ++ toString new_burst_num }
  let secs := pyInsert secs (find_insert_pos secs "subarea_rain") sa
  let secs := pyInsert secs (find_insert_pos secs "pluvio_ref") pr
  let secs := mapFirst (isType "burst_ranges")
    (fun br => { br with data := br.data ++ ["0", "0"] }) secs
  sync_storm_params secs

/-! CATG data model (rorb_catg_editor.py).  Float-valued fields are kept
as their source tokens; only integer fields are converted, matching every
use the claims make of them.  The change-tracking shadow fields keep their
role (original print flag and location captured at parse time). -/

def NODE_PRINT_FLAGS : List Int := [0, 70, 71, 72]

def REACH_PRINT_FLAGS : List Int := [0, 1]

structure NodeData where
  index : Int := 0
  xTok : String := ""
  yTok : String := ""
  scaleTok : String := ""
  subarea_flag : Int := 0
  unknown_flag : Int := 0
  downstream : Int := 0
  name : String := ""
  areaTok : String := ""
  dciTok : String := ""
  iciTok : String := ""
  print_flag : Int := 0
  flag2 : Int := 0
  flag3 : Int := 0
  raw_line : String := ""
  raw_line2 : String := ""
  print_location : String := ""
  orig_print_flag : Int := 0
  orig_location : String := ""
deriving DecidableEq

structure ReachData where
  index : Int := 0
  name : String := ""
  from_node : Int := 0
  to_node : Int := 0
  unknown1 : Int := 0
  reach_type : Int := 0
  unknown2 : Int := 0
  lengthTok : String := ""
  slopeTok : String := ""
  n_coords : Int := 0
  print_flag : Int := 0
  raw_lines : List String := []
  orig_print_flag : Int := 0
deriving DecidableEq

structure StorageData where
  index : Int := 0
  name : String := ""
  from_node : Int := 0
  to_node : Int := 0
deriving DecidableEq

structure CATGFile where
  intro_lines : List String := []
  node_header : List String := []
  nodes : List NodeData := []
  node_gap : List String := []
  node_count : Nat := 0
  reach_header : List String := []
  reaches : List ReachData := []
  reach_gap : List String := []
  reach_count : Nat := 0
  storage_lines : List String := []
  storages : List StorageData := []
  storage_count : Nat := 0
  io_lines : List String := []
  io_count : Nat := 0
  end_lines : List String := []
deriving DecidableEq

/-! Regex matchers.  NODE-RE and REACH-RE anchor the whole line: a leading
literal C, then whitespace-separated groups whose classes admit no
whitespace, so a match exists exactly when the line tokenises into the
expected count of whitespace-separated tokens of the right classes, with
at least one whitespace character after the C.  The group values are the
tokens themselves. -/

def isDigitDot (c : Char) : Bool := c.isDigit || c == '.'

/-- Whitespace tokenisation (str.split with no arguments). -/
def wsTokensAux (cs : List Char) (cur : List Char) (acc : List (List Char)) :
    List (List Char) :=
  match cs with
  | [] => ((if cur.isEmpty then acc else cur.reverse :: acc)).reverse
  | c :: rest =>
    if isPySpace c then
      wsTokensAux rest [] (if cur.isEmpty then acc else cur.reverse :: acc)
    else wsTokensAux rest (c :: cur) acc

def wsTokens (cs : List Char) : List (List Char) := wsTokensAux cs [] []

/-- The fourteen groups of NODE-RE. -/
structure NodeG where
  g1 : String
  g2 : String
  g3 : String
  g4 : String
  g5 : String
  g6 : String
  g7 : String
  g8 : String
  g9 : String
  g10 : String
  g11 : String
  g12 : String
  g13 : String
  g14 : String
deriving DecidableEq

/-- NODE-RE as a whole-line match returning its groups. -/
def nodeReMatch (line : String) : Option NodeG :=
  match line.toList with
  | 'C' :: rest =>
    match rest with
    | [] => none
    | c :: _ =>
      if !isPySpace c then none
      else
        let ts := wsTokens rest
        match ts with
        | [t1, t2, t3, t4, t5, t6, t7, t8, t9, t10, t11, t12, t13, t14] =>
          if allDigits t1 && t2.all isDigitDot && t3.all isDigitDot &&
             t4.all isDigitDot && allDigits t5 && allDigits t6 &&
             allDigits t7 && allDigits t12 && allDigits t13 && allDigits t14 &&
             t9.all isDigitDot && t10.all isDigitDot && t11.all isDigitDot then
            some ⟨t1.asString, t2.asString, t3.asString, t4.asString,
              t5.asString, t6.asString, t7.asString, t8.asString, t9.asString,
              t10.asString, t11.asString, t12.asString, t13.asString,
              t14.asString⟩
          else none
        | _ => none
  | _ => none

/-- The eleven groups of REACH-RE. -/
structure ReachG where
  r1 : String
  r2 : String
  r3 : String
  r4 : String
  r5 : String
  r6 : String
  r7 : String
  r8 : String
  r9 : String
  r10 : String
  r11 : String
deriving DecidableEq

/-- REACH-RE as a whole-line match returning its groups. -/
def reachReMatch (line : String) : Option ReachG :=
  match line.toList with
  | 'C' :: rest =>
    match rest with
    | [] => none
    | c :: _ =>
      if !isPySpace c then none
      else
        match wsTokens rest with
        | [t1, t2, t3, t4, t5, t6, t7, t8, t9, t10, t11] =>
          if allDigits t1 && allDigits t3 && allDigits t4 && allDigits t5 &&
             allDigits t6 && allDigits t7 && t8.all isDigitDot &&
             t9.all isDigitDot && allDigits t10 && allDigits t11 then
            some ⟨t1.asString, t2.asString, t3.asString, t4.asString,
              t5.asString, t6.asString, t7.asString, t8.asString, t9.asString,
              t10.asString, t11.asString⟩
          else none
        | _ => none
  | _ => none

/-- STORAGE-HEADER-RE is a prefix match: C, whitespace, three stages. -/
def storageMatch (line : String) : Option StorageData :=
  match line.toList with
  | 'C' :: rest =>
    let ws1 := rest.takeWhile isPySpace
    if ws1.isEmpty then none
    else
      let r1 := rest.drop ws1.length
      let d1 := r1.takeWhile Char.isDigit
      if d1.isEmpty then none
      else
        let r2 := r1.drop d1.length
        let ws2 := r2.takeWhile isPySpace
        if ws2.isEmpty then none
        else
          let r3 := r2.drop ws2.length
          let nm := r3.takeWhile (fun c => !isPySpace c)
          if nm.isEmpty then none
          else
            let r4 := r3.drop nm.length
            let ws3 := r4.takeWhile isPySpace
            if ws3.isEmpty then none
            else
              let r5 := r4.drop ws3.length
              let d3 := r5.takeWhile Char.isDigit
              if d3.isEmpty then none
              else
                let r6 := r5.drop d3.length
                let ws4 := r6.takeWhile isPySpace
                if ws4.isEmpty then none
                else
                  let r7 := r6.drop ws4.length
                  let d4 := r7.takeWhile Char.isDigit
                  if d4.isEmpty then none
                  else
                    some { index := (digitsVal d1 : Int), name := nm.asString
                           from_node := (digitsVal d3 : Int)
                           to_node := (digitsVal d4 : Int) }
  | _ => none

/-- CATGParser parse-count: first run of digits in a line, or zero. -/
def parse_count (line : String) : Nat :=
  let rec go : List Char → Nat
    | [] => 0
    | c :: rest => if c.isDigit then digitsVal ((c :: rest).takeWhile Char.isDigit) else go rest
  go line.toList

/-- CATGParser find-marker: first line whose stripped text is the marker. -/
def findMarker (lines : List String) (marker : String) : Option Nat :=
  lines.findIdx? (fun l => pyStrip l == marker)

/-! CATG parser (CATGParser.parse).  The parse error raised for a missing
mandatory marker is distinguished from the other runtime errors the
Python code can raise past that point (an IndexError on a truncated
header, or a ValueError from a float conversion); the claims only inspect
which of the two marker errors occurred. -/

inductive CatgErr where
  | missingNodesMarker : CatgErr
  | missingReachesMarker : CatgErr
  | otherError : CatgErr
deriving DecidableEq

/-- List indexing that raises IndexError when out of range. -/
def getEx (lines : List String) (i : Nat) : Except Unit String :=
  if i < lines.length then .ok (lines.getD i "") else .error ()

/-- Parse one node line pair: a matching first line builds a full record
after its float conversions succeed; a non-matching line is retained as an
opaque passthrough record with the sentinel name. -/
def parseNodePair (raw1 raw2 : String) : Except Unit NodeData :=
  match nodeReMatch raw1 with
  | some g =>
    if (pyIntOfFloat g.g2).isSome && (pyIntOfFloat g.g3).isSome &&
       (pyIntOfFloat g.g4).isSome && (pyIntOfFloat g.g9).isSome &&
       (pyIntOfFloat g.g10).isSome && (pyIntOfFloat g.g11).isSome then
      let pf : Int := (digitsVal g.g12.toList : Int)
      let location :=
        if (pf == 70 || pf == 71 || pf == 72) && raw2.length > 2 then
          (pyStripL (raw2.toList.drop 2)).asString
        else ""
      .ok { index := (digitsVal g.g1.toList : Int), xTok := g.g2, yTok := g.g3
            scaleTok := g.g4, subarea_flag := (digitsVal g.g5.toList : Int)
            unknown_flag := (digitsVal g.g6.toList : Int)
            downstream := (digitsVal g.g7.toList : Int), name := g.g8
            areaTok := g.g9, dciTok := g.g10, iciTok := g.g11
            print_flag := pf, flag2 := (digitsVal g.g13.toList : Int)
            flag3 := (digitsVal g.g14.toList : Int)
            raw_line := raw1, raw_line2 := raw2, print_location := location
            orig_print_flag := pf, orig_location := location }
    else .error ()
  | none => .ok { raw_line := raw1, raw_line2 := raw2, name := "?PARSE_ERR" }

/-- The node reading loop: reads count pairs of lines, stopping early when
fewer than two lines remain; returns the records and the final cursor. -/
def parseNodesLoop (lines : List String) (idx : Nat) :
    Nat → Except Unit (List NodeData × Nat)
  | 0 => .ok ([], idx)
  | n + 1 =>
    if idx + 1 ≥ lines.length then .ok ([], idx)
    else do
      let node ← parseNodePair (lines.getD idx "") (lines.getD (idx + 1) "")
      let r ← parseNodesLoop lines (idx + 2) n
      pure (node :: r.1, r.2)

/-- Parse one matching reach header with its two coordinate lines. -/
def parseReachTriple (g : ReachG) (raws : List String) :
    Except Unit ReachData :=
  if (pyIntOfFloat g.r8).isSome && (pyIntOfFloat g.r9).isSome then
    let pf : Int := (digitsVal g.r11.toList : Int)
    .ok { index := (digitsVal g.r1.toList : Int), name := g.r2
          from_node := (digitsVal g.r3.toList : Int)
          to_node := (digitsVal g.r4.toList : Int)
          unknown1 := (digitsVal g.r5.toList : Int)
          reach_type := (digitsVal g.r6.toList : Int)
          unknown2 := (digitsVal g.r7.toList : Int)
          lengthTok := g.r8, slopeTok := g.r9
          n_coords := (digitsVal g.r10.toList : Int)
          print_flag := pf, raw_lines := raws, orig_print_flag := pf }
  else .error ()

/-- The reach reading loop: a matching header consumes three lines and
yields a record; a non-matching line is skipped and yields nothing. -/
def parseReachesLoop (lines : List String) (idx : Nat) :
    Nat → Except Unit (List ReachData × Nat)
  | 0 => .ok ([], idx)
  | n + 1 =>
    if idx ≥ lines.length then .ok ([], idx)
    else
      let header := lines.getD idx ""
      match reachReMatch header with
      | some g => do
        let raws := [header] ++
          (if idx + 1 < lines.length then [lines.getD (idx + 1) ""] else []) ++
          (if idx + 2 < lines.length then [lines.getD (idx + 2) ""] else [])
        let reach ← parseReachTriple g raws
        let r ← parseReachesLoop lines (idx + 3) n
        pure (reach :: r.1, r.2)
      | none => parseReachesLoop lines (idx + 1) n

/-- The body of CATGParser.parse once both mandatory markers were found. -/
def catgParseBody (lines : List String) (ni ri : Nat) : Except Unit CATGFile := do
  let si := findMarker lines "C #STORAGES"
  let ii := findMarker lines "C #INFLOW/OUTFLOW"
  let ei := findMarker lines "C END RORB_GE"
  let introL := lines.take ni
  let nodeCountLine ← getEx lines (ni + 1)
  let ncount := parse_count nodeCountLine
  let r1 ← parseNodesLoop lines (ni + 2) ncount
  let node_gap := pySlice lines r1.2 ri
  let reachCountLine ← getEx lines (ri + 1)
  let rcount := parse_count reachCountLine
  let r2 ← parseReachesLoop lines (ri + 2) rcount
  let nextSection := si.getD (ii.getD (ei.getD lines.length))
  let reach_gap := pySlice lines r2.2 nextSection
  let storage_end := ii.getD (ei.getD lines.length)
  let storage_lines := match si with
    | some s => pySlice lines s storage_end
    | none => []
  let storage_count := match si with
    | some s => if s + 1 < lines.length then parse_count (lines.getD (s + 1) "") else 0
    | none => 0
  let storages := (storage_lines.drop 2).filterMap storageMatch
  let io_end := ei.getD lines.length
  let io_lines := match ii with
    | some i => pySlice lines i io_end
    | none => []
  let io_count := match ii with
    | some i => if i + 1 < lines.length then parse_count (lines.getD (i + 1) "") else 0
    | none => 0
  let end_lines := match ei with
    | some e => lines.drop e
    | none => []
  pure { intro_lines := introL
         node_header := [lines.getD ni "", nodeCountLine]
         nodes := r1.1, node_gap := node_gap, node_count := ncount
         reach_header := [lines.getD ri "", reachCountLine]
         reaches := r2.1, reach_gap := reach_gap, reach_count := rcount
         storage_lines := storage_lines, storages := storages
         storage_count := storage_count
         io_lines := io_lines, io_count := io_count
         end_lines := end_lines }

/-- CATGParser.parse over the line list of the file. -/
def catgParse (lines : List String) : Except CatgErr CATGFile :=
  match findMarker lines "C #NODES" with
  | none => .error .missingNodesMarker
  | some ni =>
    match findMarker lines "C #REACHES" with
    | none => .error .missingReachesMarker
    | some ri =>
      match catgParseBody lines ni ri with
      | .ok c => .ok c
      | .error _ => .error .otherError

/-! CATG writer (CATGWriter).  The patch regexes are trailing-anchored
searches, so a match exists exactly when the line ends (after optional
trailing whitespace, which the patch drops because it lies outside the
captured groups) in the required alternation of digit runs separated by
whitespace runs; the leftmost-greedy match makes every captured run
maximal.  They are translated by parsing the line from its right end. -/

/-- Decomposition of a line by the node patch regex: the part before the
match, the whitespace and digits of the print flag, the captured suffix of
two more integer fields, and the uncaptured trailing whitespace. -/
def nodeTailMatch (line : String) :
    Option (List Char × List Char × List Char × List Char × List Char) :=
  let rev := line.toList.reverse
  let ws0 := rev.takeWhile isPySpace
  let r1 := rev.drop ws0.length
  let d3 := r1.takeWhile Char.isDigit
  if d3.isEmpty then none else
  let r2 := r1.drop d3.length
  let w3 := r2.takeWhile isPySpace
  if w3.isEmpty then none else
  let r3 := r2.drop w3.length
  let d2 := r3.takeWhile Char.isDigit
  if d2.isEmpty then none else
  let r4 := r3.drop d2.length
  let w2 := r4.takeWhile isPySpace
  if w2.isEmpty then none else
  let r5 := r4.drop w2.length
  let d1 := r5.takeWhile Char.isDigit
  if d1.isEmpty then none else
  let r6 := r5.drop d1.length
  let w1 := r6.takeWhile isPySpace
  if w1.isEmpty then none else
  let pre := (r6.drop w1.length).reverse
  some (pre, w1.reverse, d1.reverse, (d3 ++ w3 ++ d2 ++ w2).reverse, ws0.reverse)

/-- CATGWriter patch-node-print-flag: replace the first of the three
trailing integers, keeping the total width of spacing plus value. -/
def patch_node_print_flag (raw_line : String) (new_flag : Int) : String :=
  match nodeTailMatch raw_line with
  | none => raw_line
  | some (pre, w1, d1, sfx, _ws0) =>
    let total_width := w1.length + d1.length
    let new_value := toString new_flag
    let new_spacing := List.replicate (max 1 (total_width - new_value.length)) ' '
    (pre ++ new_spacing ++ new_value.toList ++ sfx).asString

/-- Decomposition of a line by the reach patch regex. -/
def reachTailMatch (line : String) :
    Option (List Char × List Char × List Char × List Char) :=
  let rev := line.toList.reverse
  let ws0 := rev.takeWhile isPySpace
  let r1 := rev.drop ws0.length
  let d := r1.takeWhile Char.isDigit
  if d.isEmpty then none else
  let r2 := r1.drop d.length
  let w := r2.takeWhile isPySpace
  if w.isEmpty then none else
  some ((r2.drop w.length).reverse, w.reverse, d.reverse, ws0.reverse)

/-- CATGWriter patch-reach-print-flag: replace the single trailing integer
preserving the column width. -/
def patch_reach_print_flag (raw_line : String) (new_flag : Int) : String :=
  match reachTailMatch raw_line with
  | none => raw_line
  | some (pre, w, d, _ws0) =>
    let total_width := w.length + d.length
    let new_value := toString new_flag
    let new_spacing := List.replicate (max 1 (total_width - new_value.length)) ' '
    (pre ++ new_spacing ++ new_value.toList).asString

/-- CATGWriter reconstruct-line2: second node line after a flag or
location change, padded to the original width. -/
def reconstruct_line2 (node : NodeData) : String :=
  let original_width := if node.raw_line2 != "" then node.raw_line2.length else 52
  if node.print_flag == 70 || node.print_flag == 71 || node.print_flag == 72 then
    if node.print_location != "" && pyStrip node.print_location != "" then
      ljust ("C " ++ node.print_location) original_width
    else node.raw_line2
  else
    if node.orig_print_flag == 70 || node.orig_print_flag == 71 ||
       node.orig_print_flag == 72 then
      "C" ++ (List.replicate (original_width - 1) ' ').asString
    else node.raw_line2

/-- The two lines CATGWriter.write emits for a node. -/
def writeNode (node : NodeData) : List String :=
  if node.print_flag != node.orig_print_flag then
    [patch_node_print_flag node.raw_line node.print_flag, reconstruct_line2 node]
  else if (node.print_flag == 70 || node.print_flag == 71 || node.print_flag == 72)
      && node.print_location != node.orig_location then
    [node.raw_line, reconstruct_line2 node]
  else [node.raw_line, node.raw_line2]

/-- The lines CATGWriter.write emits for a reach. -/
def writeReach (reach : ReachData) : List String :=
  if reach.print_flag != reach.orig_print_flag then
    match reach.raw_lines with
    | [] => []
    | h :: t => patch_reach_print_flag h reach.print_flag :: t
  else reach.raw_lines

/-- CATGWriter.write: all output lines of the file. -/
def catgWrite (catg : CATGFile) : List String :=
  catg.intro_lines ++ catg.node_header ++
  (catg.nodes.map writeNode).flatten ++ catg.node_gap ++
  catg.reach_header ++ (catg.reaches.map writeReach).flatten ++
  catg.reach_gap ++ catg.storage_lines ++ catg.io_lines ++ catg.end_lines

/-! The cell-changed handlers of the node and reach tables: the decision
logic validating an edited print flag against the valid sets, reverting
the document on a non-integer or out-of-domain value. -/

/-- Node-table cell change on the print-flag column. -/
def node_cell_changed (nodes : List NodeData) (r : Nat) (text : String) :
    List NodeData :=
  if h : r < nodes.length then
    match pyInt (pyStrip text) with
    | none => nodes
    | some v =>
      if NODE_PRINT_FLAGS.contains v then
        nodes.set r { nodes[r] with print_flag := v }
      else nodes
  else nodes

/-- Reach-table cell change on the print-flag column. -/
def reach_cell_changed (reaches : List ReachData) (r : Nat) (text : String) :
    List ReachData :=
  if h : r < reaches.length then
    match pyInt (pyStrip text) with
    | none => reaches
    | some v =>
      if REACH_PRINT_FLAGS.contains v then
        reaches.set r { reaches[r] with print_flag := v }
      else reaches
  else reaches

/-! Validity of a CATG file, as a constructive shape: the regions of the
file in their fixed order, with the five section markers in place.  The
side conditions say the markers occur nowhere else, the two count lines
agree with the record counts, and every record parses (reach headers must
match their grammar; node pairs may be arbitrary because the parser keeps
non-matching pairs as passthrough records). -/

def CATG_MARKERS : List String :=
  ["C #NODES", "C #REACHES", "C #STORAGES", "C #INFLOW/OUTFLOW", "C END RORB_GE"]

def noMarkerIn (ls : List String) : Bool :=
  ls.all (fun l => CATG_MARKERS.all (fun m => pyStrip l != m))

structure CatgShape where
  intro : List String := []
  nodeCountLine : String := ""
  nodePairs : List (String × String) := []
  nodeGap : List String := []
  reachCountLine : String := ""
  reachTriples : List (String × String × String) := []
  reachGap : List String := []
  storageBody : List String := []
  ioBody : List String := []
  endBody : List String := []
deriving DecidableEq

def pairLines (p : String × String) : List String := [p.1, p.2]

def tripleLines (t : String × String × String) : List String := [t.1, t.2.1, t.2.2]

/-- The file (as a line list) a CatgShape describes. -/
def renderCatg (d : CatgShape) : List String :=
  d.intro ++ ["C #NODES", d.nodeCountLine] ++ (d.nodePairs.map pairLines).flatten ++
  d.nodeGap ++ ["C #REACHES", d.reachCountLine] ++
  (d.reachTriples.map tripleLines).flatten ++ d.reachGap ++
  ["C #STORAGES"] ++ d.storageBody ++ ["C #INFLOW/OUTFLOW"] ++ d.ioBody ++
  ["C END RORB_GE"] ++ d.endBody

def isOkB {ε α : Type} (e : Except ε α) : Bool :=
  match e with
  | .ok _ => true
  | .error _ => false

def nodePairOk (p : String × String) : Bool := isOkB (parseNodePair p.1 p.2)

def reachTripleOk (t : String × String × String) : Bool :=
  match reachReMatch t.1 with
  | some g => isOkB (parseReachTriple g [t.1, t.2.1, t.2.2])
  | none => false

/-- The node record a pair of lines parses to (when parsing succeeds). -/
def nodeOfPair (p : String × String) : NodeData :=
  match parseNodePair p.1 p.2 with
  | .ok v => v
  | .error _ => {}

/-- The reach record a line triple parses to (when its header matches and
parsing succeeds). -/
def reachOfTriple (t : String × String × String) : ReachData :=
  match reachReMatch t.1 with
  | some g =>
    match parseReachTriple g [t.1, t.2.1, t.2.2] with
    | .ok v => v
    | .error _ => {}
  | none => {}

def CatgValid (d : CatgShape) : Bool :=
  noMarkerIn d.intro && noMarkerIn [d.nodeCountLine] &&
  noMarkerIn ((d.nodePairs.map pairLines).flatten) && noMarkerIn d.nodeGap &&
  noMarkerIn [d.reachCountLine] &&
  noMarkerIn ((d.reachTriples.map tripleLines).flatten) &&
  noMarkerIn d.reachGap && noMarkerIn d.storageBody && noMarkerIn d.ioBody &&
  (parse_count d.nodeCountLine == d.nodePairs.length) &&
  (parse_count d.reachCountLine == d.reachTriples.length) &&
  d.nodePairs.all nodePairOk &&
  d.reachTriples.all reachTripleOk

/-- Byte-for-byte round trip of CATGParser.parse then CATGWriter.write
with zero mutations, at the level of line lists. -/
def catgRoundtrip (lines : List String) : Bool :=
  match catgParse lines with
  | .ok c => catgWrite c == lines
  | .error _ => false

/-- Byte-for-byte round trip of STMParser.parse then STMWriter.write. -/
def stmRoundtrip (lines : List String) : Bool :=
  match stmParseLines lines with
  | .ok doc => stmWrite doc.sections == lines
  | .error _ => false

/-! Concrete inputs used in the statements below. -/

/-- A small well-formed STM file (one burst, one pluviograph, one
hydrograph station) whose data lines use plain commas. -/
def exStm : List String :=
  ["Event", "FIT", "1,24,1,1,0,-99", "0,24,-99",
   "P1", "0,-99", "C sub", "1.0,-99", "C ref", "1,-99",
   "0,24,-99", "Stn", "0,-99"]

/-- A small valid CATG shape with one node and one reach. -/
def exCatgShape : CatgShape :=
  { intro := ["intro"]
    nodeCountLine := "C 1"
    nodePairs := [("C 1 1.0 2.0 1.0 1 0 2 A 0.5 0.0 0.0 0 0 0", "C")]
    nodeGap := []
    reachCountLine := "C 1"
    reachTriples := [("C 1 R 1 2 0 1 0 10.0 0.5 2 0", "C 0.0 1.0", "C 0.0 1.0")]
    reachGap := []
    storageBody := ["C 0"]
    ioBody := ["C 0"]
    endBody := ["tail"] }

/-- A node line with a four-character print-flag field and one trailing
space; it matches the node grammar. -/
def exC3line : String :=
  "C 1 1.0 2.0 1.0 0 0 2 N 0.5 0.0 0.0   0  0  0 "

/-- The same node line without the trailing space. -/
def exC3lineG : String :=
  "C 1 1.0 2.0 1.0 0 0 2 N 0.5 0.0 0.0   0  0  0"

/-! Concrete section documents used in witnesses and counterexamples. -/

def secEH : Section :=
  { section_type := "event_header", raw_text := "Event", label := "Event Description" }

def secMM : Section :=
  { section_type := "model_mode", raw_text := "FIT", label := "Model Mode" }

def mkSP (data : List String) : Section :=
  { section_type := "storm_params", delimiter := some ","
    terminator_style := "inline", data := data, label := "Storm Parameters" }

def mkBR (data : List String) : Section :=
  { section_type := "burst_ranges", delimiter := some ","
    terminator_style := "inline", data := data, label := "Burst Time Ranges" }

def mkPluvio (n : Nat) (data : List String) : Section :=
  { section_type := "pluvio_data", delimiter := some ","
    terminator_style := "inline", pfx_line := "Pluvio_" ++ toString n
    data := data, label := "Pluviograph " ++ toString n }

def mkSA (n : Nat) (data : List String) : Section :=
  { section_type := "subarea_rain", delimiter := some ","
    terminator_style := "inline"
    comment_lines := ["C Sub-area rainfall for Burst " ++ toString n]
    data := data, label := "Sub-area Rainfall - Burst " ++ toString n }

def mkPR (n : Nat) (data : List String) : Section :=
  { section_type := "pluvio_ref", delimiter := some ","
    terminator_style := "inline"
    comment_lines := ["C Pluviograph references for Burst " ++ toString n]
    data := data, label := "Pluviograph Refs - Burst " ++ toString n }

/-- A document with burst count three satisfying the cross-section
invariants (three sub-area and reference sections, six burst-range
values). -/
def exC5doc : List Section :=
  [secEH, secMM, mkSP ["1", "24", "3", "1", "0"],
   mkBR ["0", "8", "8", "16", "16", "24"], mkPluvio 1 ["0", "0"],
   mkSA 1 ["1.0"], mkSA 2 ["1.0"], mkSA 3 ["1.0"],
   mkPR 1 ["1"], mkPR 2 ["1"], mkPR 3 ["1"]]

/-- A document with two pluviograph sections and a pluviograph count of
two: the count-driven resize has nothing to do. -/
def exC6pre : List Section :=
  [secEH, secMM, mkSP ["1", "24", "0", "2", "0"], mkBR []]

def exC6a : List Section :=
  exC6pre ++ [mkPluvio 1 ["0", "0"], mkPluvio 2 ["0", "0"]]

/-- The same document with the pluviograph count edited to five. -/
def exC6b : List Section :=
  [secEH, secMM, mkSP ["1", "24", "0", "5", "0"], mkBR [],
   mkPluvio 1 ["0", "0"], mkPluvio 2 ["0", "0"]]

/-- A document with two pluviograph sections of unequal value counts, the
first holding two values and the last holding three, with the count
edited to five. -/
def exC6cex : List Section :=
  [secEH, secMM, mkSP ["1", "24", "0", "5", "0"], mkBR [],
   mkPluvio 1 ["0", "0"], mkPluvio 2 ["7", "8", "9"]]

/-- An STM file carrying trailing text after the inline sentinel of its
pluviograph, sub-area, reference and station data lines. -/
def exStmTrail : List String :=
  ["Event", "FIT", "1,24,1,1,0,-99", "0,24,-99",
   "P1", "0,-99 pj", "C sub", "1.0,-99 sj", "C ref", "1,-99 rj",
   "0,24,-99", "Stn", "0,-99 hj"]

/-- The document parsed from the file above: all trailing texts after the
sentinels of the four block types are gone. -/
def exStmTrailDoc : StmDoc :=
  { sections :=
      [secEH, secMM, mkSP ["1", "24", "1", "1", "0"], mkBR ["0", "24"],
       { mkPluvio 1 ["0"] with pfx_line := "P1" },
       { mkSA 1 ["1.0"] with comment_lines := ["C sub"] },
       { mkPR 1 ["1"] with comment_lines := ["C ref"] },
       { section_type := "hydro_time_ranges", delimiter := some ","
         terminator_style := "inline", data := ["0", "24"]
         label := "Hydrograph Time Ranges" },
       { section_type := "hydro_station", delimiter := some ","
         terminator_style := "inline", pfx_line := "Stn", data := ["0"]
         label := "Hydro: Stn" }]
    burst_count := 1, pluvio_count := 1, duration := 24 }

/-- A document whose burst-count token is not an integer. -/
def exC8a : List Section :=
  [secEH, secMM, mkSP ["1", "24", "abc", "1", "0"], mkBR [],
   mkPluvio 1 ["0"]]

/-- A document whose burst and pluviograph counts are negative, hence
clamped to zero by the resize. -/
def exC8b : List Section :=
  [secEH, secMM, mkSP ["1", "24", "-5", "-3", "0"], mkBR ["0", "8"],
   mkPluvio 1 ["0"], mkSA 1 ["1.0"], mkPR 1 ["1"]]

/-- The unequal-shape document with its pluviograph count still two: the
resize is the identity on it. -/
def exC6aU : List Section :=
  [secEH, secMM, mkSP ["1", "24", "0", "2", "0"], mkBR [],
   mkPluvio 1 ["0", "0"], mkPluvio 2 ["7", "8", "9"]]

/-- The document after raising the count to five: three new sections at
the end of the pluviograph block, shaped like the first existing one. -/
def exC6fullU : List Section :=
  [secEH, secMM, mkSP ["1", "24", "0", "5", "0"], mkBR [],
   mkPluvio 1 ["0", "0"], mkPluvio 2 ["7", "8", "9"],
   mkPluvio 3 ["0", "0"], mkPluvio 4 ["0", "0"], mkPluvio 5 ["0", "0"]]

/-- The five-pluviograph document with its count token edited back to
two. -/
def exC6downU : List Section :=
  [secEH, secMM, mkSP ["1", "24", "0", "2", "0"], mkBR [],
   mkPluvio 1 ["0", "0"], mkPluvio 2 ["7", "8", "9"],
   mkPluvio 3 ["0", "0"], mkPluvio 4 ["0", "0"], mkPluvio 5 ["0", "0"]]

/-! Theorems.  Each claim of the specification is settled below; helper
lemmas precede the claim theorems that use them. -/

/-! Helper lemmas for the CATG round-trip theorem: marker search, indexed
access and slicing over a file laid out as a concatenation of regions. -/

theorem noMarkerIn_mem {ls : List String} {l m : String}
    (h : noMarkerIn ls = true) (hl : l ∈ ls) (hm : m ∈ CATG_MARKERS) :
    (pyStrip l == m) = false := by
  unfold noMarkerIn at h
  rw [List.all_eq_true] at h
  have h1 := h l hl
  rw [List.all_eq_true] at h1
  simpa using h1 m hm

theorem findMarker_layout {A : List String} {m0 : String} {B : List String}
    {m : String} (hA : ∀ l ∈ A, (pyStrip l == m) = false)
    (hm : (pyStrip m0 == m) = true) :
    findMarker (A ++ m0 :: B) m = some A.length := by
  induction A with
  | nil => simp [findMarker, List.findIdx?_cons, hm]
  | cons a A ih =>
    have ha := hA a (List.mem_cons_self a A)
    have ih2 := ih (fun l hl => hA l (List.mem_cons_of_mem a hl))
    unfold findMarker at ih2 ⊢
    rw [List.cons_append, List.findIdx?_cons]
    simp [ha, ih2]

theorem getD_layout {A : List String} {B : List String} {k : Nat} {d : String} :
    (A ++ B).getD (A.length + k) d = B.getD k d := by
  induction A with
  | nil => simp
  | cons a A ih => simpa [Nat.succ_add] using ih

theorem getD_layout_zero {A : List String} {l : String} {B : List String}
    {d : String} : (A ++ l :: B).getD A.length d = l := by
  have h := @getD_layout A (l :: B) 0 d
  simpa using h

theorem getEx_layout {A : List String} {l : String} {B : List String} :
    getEx (A ++ l :: B) A.length = .ok l := by
  unfold getEx
  rw [if_pos (by simp)]
  rw [getD_layout_zero]

theorem pySlice_layout (A B C : List String) :
    pySlice (A ++ (B ++ C)) A.length (A.length + B.length) = B := by
  unfold pySlice
  rw [List.drop_left, Nat.add_sub_cancel_left, List.take_left]

theorem drop_layout (A B : List String) : (A ++ B).drop A.length = B :=
  List.drop_left A B

theorem parseNodesLoop_layout (pairs : List (String × String))
    (pre rest : List String)
    (hok : ∀ p ∈ pairs, nodePairOk p = true) :
    parseNodesLoop (pre ++ ((pairs.map pairLines).flatten ++ rest))
        pre.length pairs.length =
      .ok (pairs.map nodeOfPair, pre.length + 2 * pairs.length) := by
  induction pairs generalizing pre with
  | nil => simp [parseNodesLoop]
  | cons p ps ih =>
    obtain ⟨a, b⟩ := p
    have hok0 : nodePairOk (a, b) = true := hok _ (List.mem_cons_self _ _)
    have hexp : (((a, b) :: ps).map pairLines).flatten ++ rest =
        a :: b :: ((ps.map pairLines).flatten ++ rest) := by
      simp [pairLines]
    rw [hexp]
    have hlen : ¬(pre.length + 1 ≥
        (pre ++ a :: b :: ((ps.map pairLines).flatten ++ rest)).length) := by
      simp only [List.length_append, List.length_cons]
      omega
    simp only [List.length_cons]
    conv_lhs => rw [parseNodesLoop]
    rw [if_neg hlen]
    have hga : (pre ++ a :: b :: ((ps.map pairLines).flatten ++ rest)).getD
        pre.length "" = a := getD_layout_zero
    have hgb : (pre ++ a :: b :: ((ps.map pairLines).flatten ++ rest)).getD
        (pre.length + 1) "" = b := by
      have h2 : pre ++ a :: b :: ((ps.map pairLines).flatten ++ rest) =
          (pre ++ [a]) ++ b :: ((ps.map pairLines).flatten ++ rest) := by simp
      have h3 : pre.length + 1 = (pre ++ [a]).length := by simp
      rw [h2, h3]
      exact getD_layout_zero
    rw [hga, hgb]
    have hpp : parseNodePair a b = .ok (nodeOfPair (a, b)) := by
      unfold nodePairOk isOkB at hok0
      unfold nodeOfPair
      dsimp only at hok0 ⊢
      rcases hm : parseNodePair a b with u | v
      · rw [hm] at hok0; cases hok0
      · rfl
    rw [hpp]
    have hre : pre ++ a :: b :: ((ps.map pairLines).flatten ++ rest) =
        (pre ++ [a, b]) ++ ((ps.map pairLines).flatten ++ rest) := by simp
    have hlen2 : pre.length + 2 = (pre ++ [a, b]).length := by simp
    rw [hre, hlen2,
      ih (pre ++ [a, b]) (fun q hq => hok q (List.mem_cons_of_mem _ hq))]
    simp only [bind, Except.bind, pure, Except.pure, List.map_cons]
    have : (pre ++ [a, b]).length + 2 * ps.length =
        pre.length + 2 * (ps.length + 1) := by simp; omega
    rw [this]

theorem parseReachesLoop_layout (triples : List (String × String × String))
    (pre rest : List String)
    (hok : ∀ t ∈ triples, reachTripleOk t = true) :
    parseReachesLoop (pre ++ ((triples.map tripleLines).flatten ++ rest))
        pre.length triples.length =
      .ok (triples.map reachOfTriple, pre.length + 3 * triples.length) := by
  induction triples generalizing pre with
  | nil => simp [parseReachesLoop]
  | cons t ts ih =>
    obtain ⟨ha, hb, hc⟩ := t
    have hok0 : reachTripleOk (ha, hb, hc) = true := hok _ (List.mem_cons_self _ _)
    have hexp : (((ha, hb, hc) :: ts).map tripleLines).flatten ++ rest =
        ha :: hb :: hc :: ((ts.map tripleLines).flatten ++ rest) := by
      simp [tripleLines]
    rw [hexp]
    set Z := (ts.map tripleLines).flatten ++ rest with hZ
    have hlen0 : ¬(pre.length ≥ (pre ++ ha :: hb :: hc :: Z).length) := by
      simp only [List.length_append, List.length_cons]
      omega
    simp only [List.length_cons]
    conv_lhs => rw [parseReachesLoop]
    rw [if_neg hlen0]
    have hga : (pre ++ ha :: hb :: hc :: Z).getD pre.length "" = ha :=
      getD_layout_zero
    rw [hga]
    unfold reachTripleOk at hok0
    rcases hg : reachReMatch ha with _ | g
    · rw [hg] at hok0; cases hok0
    rw [hg] at hok0
    simp only [hg]
    have hc1 : pre.length + 1 < (pre ++ ha :: hb :: hc :: Z).length := by
      simp only [List.length_append, List.length_cons]
      omega
    have hc2 : pre.length + 2 < (pre ++ ha :: hb :: hc :: Z).length := by
      simp only [List.length_append, List.length_cons]
      omega
    rw [if_pos hc1, if_pos hc2]
    have hgb : (pre ++ ha :: hb :: hc :: Z).getD (pre.length + 1) "" = hb := by
      have e : pre ++ ha :: hb :: hc :: Z = (pre ++ [ha]) ++ hb :: hc :: Z := by simp
      have e2 : pre.length + 1 = (pre ++ [ha]).length := by simp
      rw [e, e2]
      exact getD_layout_zero
    have hgc : (pre ++ ha :: hb :: hc :: Z).getD (pre.length + 2) "" = hc := by
      have e : pre ++ ha :: hb :: hc :: Z = (pre ++ [ha, hb]) ++ hc :: Z := by simp
      have e2 : pre.length + 2 = (pre ++ [ha, hb]).length := by simp
      rw [e, e2]
      exact getD_layout_zero
    rw [hgb, hgc]
    have hraws : [ha] ++ [hb] ++ [hc] = [ha, hb, hc] := by simp
    unfold isOkB at hok0
    dsimp only at hok0
    have hpp : parseReachTriple g [ha, hb, hc] =
        .ok (reachOfTriple (ha, hb, hc)) := by
      unfold reachOfTriple
      dsimp only
      rw [hg]
      dsimp only
      rcases hm : parseReachTriple g [ha, hb, hc] with u | v
      · rw [hm] at hok0; cases hok0
      · rfl
    rw [hraws, hpp]
    have hre : pre ++ ha :: hb :: hc :: Z = (pre ++ [ha, hb, hc]) ++ Z := by simp
    have hlen2 : pre.length + 3 = (pre ++ [ha, hb, hc]).length := by simp
    rw [hre, hlen2, hZ,
      ih (pre ++ [ha, hb, hc]) (fun q hq => hok q (List.mem_cons_of_mem _ hq))]
    simp only [bind, Except.bind, pure, Except.pure, List.map_cons]
    have harith : (pre ++ [ha, hb, hc]).length + 3 * ts.length =
        pre.length + 3 * (ts.length + 1) := by simp; omega
    rw [harith]

theorem parseNodePair_ok_write (a b : String) (v : NodeData)
    (hm : parseNodePair a b = .ok v) : writeNode v = [a, b] := by
  unfold parseNodePair at hm
  rcases hg : nodeReMatch a with _ | g <;> rw [hg] at hm
  · cases hm
    simp [writeNode]
  · dsimp only at hm
    rcases hcond : ((pyIntOfFloat g.g2).isSome && (pyIntOfFloat g.g3).isSome &&
        (pyIntOfFloat g.g4).isSome && (pyIntOfFloat g.g9).isSome &&
        (pyIntOfFloat g.g10).isSome && (pyIntOfFloat g.g11).isSome) with _ | _ <;>
      rw [hcond] at hm
    · cases hm
    · cases hm
      simp [writeNode]

theorem writeNode_nodeOfPair (p : String × String) (h : nodePairOk p = true) :
    writeNode (nodeOfPair p) = [p.1, p.2] := by
  obtain ⟨a, b⟩ := p
  unfold nodePairOk isOkB at h
  dsimp only at h
  unfold nodeOfPair
  dsimp only
  rcases hm : parseNodePair a b with u | v
  · rw [hm] at h
    cases h
  · exact parseNodePair_ok_write a b v hm

theorem parseReachTriple_ok_write (g : ReachG) (raws : List String)
    (v : ReachData) (hm : parseReachTriple g raws = .ok v) :
    writeReach v = raws := by
  unfold parseReachTriple at hm
  rcases hcond : ((pyIntOfFloat g.r8).isSome && (pyIntOfFloat g.r9).isSome)
    with _ | _ <;> rw [hcond] at hm
  · cases hm
  · cases hm
    simp [writeReach]

theorem writeReach_reachOfTriple (t : String × String × String)
    (h : reachTripleOk t = true) :
    writeReach (reachOfTriple t) = [t.1, t.2.1, t.2.2] := by
  obtain ⟨ha, hb, hc⟩ := t
  unfold reachTripleOk isOkB at h
  dsimp only at h
  unfold reachOfTriple
  dsimp only
  rcases hg : reachReMatch ha with _ | g <;> rw [hg] at h
  · cases h
  · dsimp only at h ⊢
    rcases hm : parseReachTriple g [ha, hb, hc] with u | v <;> rw [hm] at h
    · cases h
    · exact parseReachTriple_ok_write g [ha, hb, hc] v hm

theorem flatten_writeNode (pairs : List (String × String))
    (hok : ∀ p ∈ pairs, nodePairOk p = true) :
    ((pairs.map nodeOfPair).map writeNode).flatten =
      (pairs.map pairLines).flatten := by
  induction pairs with
  | nil => rfl
  | cons p ps ih =>
    simp only [List.map_cons, List.flatten_cons]
    rw [writeNode_nodeOfPair p (hok p (List.mem_cons_self _ _)),
      ih (fun q hq => hok q (List.mem_cons_of_mem _ hq))]
    rfl

theorem flatten_writeReach (triples : List (String × String × String))
    (hok : ∀ t ∈ triples, reachTripleOk t = true) :
    ((triples.map reachOfTriple).map writeReach).flatten =
      (triples.map tripleLines).flatten := by
  induction triples with
  | nil => rfl
  | cons t ts ih =>
    simp only [List.map_cons, List.flatten_cons]
    rw [writeReach_reachOfTriple t (hok t (List.mem_cons_self _ _)),
      ih (fun q hq => hok q (List.mem_cons_of_mem _ hq))]
    rfl

theorem pairLines_flatten_length (pairs : List (String × String)) :
    ((pairs.map pairLines).flatten).length = 2 * pairs.length := by
  induction pairs with
  | nil => rfl
  | cons p ps ih => simp [pairLines, ih]; omega

theorem tripleLines_flatten_length (ts : List (String × String × String)) :
    ((ts.map tripleLines).flatten).length = 3 * ts.length := by
  induction ts with
  | nil => rfl
  | cons t ts ih => simp [tripleLines, ih]; omega

/-- Claim C1 (amended): for any valid CATG file, writing the parsed
document with zero mutations reproduces the original file byte for byte:
the concatenation of all stored regions in fixed order equals the input.
The STM half of the original claim fails (see the counterexample): the STM
writer normalises comma-delimited data lines to comma-space joins. -/
theorem C1_theorem (d : CatgShape) (h : CatgValid d = true) :
    catgRoundtrip (renderCatg d) = true := by
  unfold CatgValid at h
  simp only [Bool.and_eq_true] at h
  obtain ⟨⟨⟨⟨⟨⟨⟨⟨⟨⟨⟨⟨h1, h2⟩, h3⟩, h4⟩, h5⟩, h6⟩, h7⟩, h8⟩, h9⟩, h10⟩,
    h11⟩, h12⟩, h13⟩ := h
  have memF : ∀ (m : String), m ∈ CATG_MARKERS → ∀ (ls : List String),
      noMarkerIn ls = true → ∀ l ∈ ls, (pyStrip l == m) = false :=
    fun m hm ls hns l hl => noMarkerIn_mem hns hl hm
  have hc1 : parse_count d.nodeCountLine = d.nodePairs.length := by
    simpa using h10
  have hc2 : parse_count d.reachCountLine = d.reachTriples.length := by
    simpa using h11
  have hok1 : ∀ p ∈ d.nodePairs, nodePairOk p = true := by
    simpa [List.all_eq_true] using h12
  have hok2 : ∀ t ∈ d.reachTriples, reachTripleOk t = true := by
    simpa [List.all_eq_true] using h13

  -- abbreviations for the flattened record regions
  set NP := (d.nodePairs.map pairLines).flatten with hNP
  set RT := (d.reachTriples.map tripleLines).flatten with hRT
  -- the five marker positions
  have e1 : renderCatg d = d.intro ++ "C #NODES" :: (d.nodeCountLine ::
      (NP ++ (d.nodeGap ++ ("C #REACHES" :: d.reachCountLine ::
        (RT ++ (d.reachGap ++ ("C #STORAGES" :: (d.storageBody ++
          ("C #INFLOW/OUTFLOW" :: (d.ioBody ++
            ("C END RORB_GE" :: d.endBody))))))))))) := by
    simp [renderCatg, List.append_assoc]
  have f1 : findMarker (renderCatg d) "C #NODES" = some d.intro.length := by
    rw [e1]
    exact findMarker_layout (fun l hl => memF _ (by decide) _ h1 l hl) (by decide)
  have e2 : renderCatg d = (d.intro ++ "C #NODES" :: d.nodeCountLine ::
      (NP ++ d.nodeGap)) ++ "C #REACHES" :: (d.reachCountLine ::
        (RT ++ (d.reachGap ++ ("C #STORAGES" :: (d.storageBody ++
          ("C #INFLOW/OUTFLOW" :: (d.ioBody ++
            ("C END RORB_GE" :: d.endBody)))))))) := by
    simp [renderCatg, List.append_assoc]
  have hA2 : ∀ l ∈ (d.intro ++ "C #NODES" :: d.nodeCountLine ::
      (NP ++ d.nodeGap)), (pyStrip l == "C #REACHES") = false := by
    intro l hl
    simp only [List.mem_append, List.mem_cons] at hl
    rcases hl with hl | hl | hl | hl | hl
    · exact memF _ (by decide) _ h1 l hl
    · subst hl; decide
    · subst hl
      exact memF _ (by decide) _ h2 _ (by simp)
    · exact memF _ (by decide) _ h3 l hl
    · exact memF _ (by decide) _ h4 l hl
  have f2 : findMarker (renderCatg d) "C #REACHES" =
      some (d.intro ++ "C #NODES" :: d.nodeCountLine ::
        (NP ++ d.nodeGap)).length := by
    rw [e2]
    exact findMarker_layout hA2 (by decide)

  have e3 : renderCatg d = ((d.intro ++ "C #NODES" :: d.nodeCountLine ::
      (NP ++ d.nodeGap)) ++ "C #REACHES" :: d.reachCountLine ::
      (RT ++ d.reachGap)) ++ "C #STORAGES" :: (d.storageBody ++
        ("C #INFLOW/OUTFLOW" :: (d.ioBody ++
          ("C END RORB_GE" :: d.endBody)))) := by
    simp [renderCatg, List.append_assoc]
  have hA3 : ∀ l ∈ ((d.intro ++ "C #NODES" :: d.nodeCountLine ::
      (NP ++ d.nodeGap)) ++ "C #REACHES" :: d.reachCountLine ::
      (RT ++ d.reachGap)), (pyStrip l == "C #STORAGES") = false := by
    intro l hl
    simp only [List.mem_append, List.mem_cons] at hl
    rcases hl with ((hl | hl | hl | hl | hl) | hl | hl | hl | hl)
    · exact memF _ (by decide) _ h1 l hl
    · subst hl; decide
    · subst hl
      exact memF _ (by decide) _ h2 _ (by simp)
    · exact memF _ (by decide) _ h3 l hl
    · exact memF _ (by decide) _ h4 l hl
    · subst hl; decide
    · subst hl
      exact memF _ (by decide) _ h5 _ (by simp)
    · exact memF _ (by decide) _ h6 l hl
    · exact memF _ (by decide) _ h7 l hl
  have f3 : findMarker (renderCatg d) "C #STORAGES" =
      some ((d.intro ++ "C #NODES" :: d.nodeCountLine ::
        (NP ++ d.nodeGap)) ++ "C #REACHES" :: d.reachCountLine ::
        (RT ++ d.reachGap)).length := by
    rw [e3]
    exact findMarker_layout hA3 (by decide)

  have e4 : renderCatg d = (((d.intro ++ "C #NODES" :: d.nodeCountLine ::
      (NP ++ d.nodeGap)) ++ "C #REACHES" :: d.reachCountLine ::
      (RT ++ d.reachGap)) ++ "C #STORAGES" :: d.storageBody) ++
      "C #INFLOW/OUTFLOW" :: (d.ioBody ++ ("C END RORB_GE" :: d.endBody)) := by
    simp [renderCatg, List.append_assoc]
  have hA4 : ∀ l ∈ (((d.intro ++ "C #NODES" :: d.nodeCountLine ::
      (NP ++ d.nodeGap)) ++ "C #REACHES" :: d.reachCountLine ::
      (RT ++ d.reachGap)) ++ "C #STORAGES" :: d.storageBody),
      (pyStrip l == "C #INFLOW/OUTFLOW") = false := by
    intro l hl
    simp only [List.mem_append, List.mem_cons] at hl
    rcases hl with (((hl | hl | hl | hl | hl) | hl | hl | hl | hl) | hl | hl)
    · exact memF _ (by decide) _ h1 l hl
    · subst hl; decide
    · subst hl
      exact memF _ (by decide) _ h2 _ (by simp)
    · exact memF _ (by decide) _ h3 l hl
    · exact memF _ (by decide) _ h4 l hl
    · subst hl; decide
    · subst hl
      exact memF _ (by decide) _ h5 _ (by simp)
    · exact memF _ (by decide) _ h6 l hl
    · exact memF _ (by decide) _ h7 l hl
    · subst hl; decide
    · exact memF _ (by decide) _ h8 l hl
  have f4 : findMarker (renderCatg d) "C #INFLOW/OUTFLOW" =
      some (((d.intro ++ "C #NODES" :: d.nodeCountLine ::
        (NP ++ d.nodeGap)) ++ "C #REACHES" :: d.reachCountLine ::
        (RT ++ d.reachGap)) ++ "C #STORAGES" :: d.storageBody).length := by
    rw [e4]
    exact findMarker_layout hA4 (by decide)
  have e5 : renderCatg d = ((((d.intro ++ "C #NODES" :: d.nodeCountLine ::
      (NP ++ d.nodeGap)) ++ "C #REACHES" :: d.reachCountLine ::
      (RT ++ d.reachGap)) ++ "C #STORAGES" :: d.storageBody) ++
      "C #INFLOW/OUTFLOW" :: d.ioBody) ++ "C END RORB_GE" :: d.endBody := by
    simp [renderCatg, List.append_assoc]
  have hA5 : ∀ l ∈ ((((d.intro ++ "C #NODES" :: d.nodeCountLine ::
      (NP ++ d.nodeGap)) ++ "C #REACHES" :: d.reachCountLine ::
      (RT ++ d.reachGap)) ++ "C #STORAGES" :: d.storageBody) ++
      "C #INFLOW/OUTFLOW" :: d.ioBody),
      (pyStrip l == "C END RORB_GE") = false := by
    intro l hl
    simp only [List.mem_append, List.mem_cons] at hl
    rcases hl with ((((hl | hl | hl | hl | hl) | hl | hl | hl | hl) | hl | hl)
      | hl | hl)
    · exact memF _ (by decide) _ h1 l hl
    · subst hl; decide
    · subst hl
      exact memF _ (by decide) _ h2 _ (by simp)
    · exact memF _ (by decide) _ h3 l hl
    · exact memF _ (by decide) _ h4 l hl
    · subst hl; decide
    · subst hl
      exact memF _ (by decide) _ h5 _ (by simp)
    · exact memF _ (by decide) _ h6 l hl
    · exact memF _ (by decide) _ h7 l hl
    · subst hl; decide
    · exact memF _ (by decide) _ h8 l hl
    · subst hl; decide
    · exact memF _ (by decide) _ h9 l hl
  have f5 : findMarker (renderCatg d) "C END RORB_GE" =
      some ((((d.intro ++ "C #NODES" :: d.nodeCountLine ::
        (NP ++ d.nodeGap)) ++ "C #REACHES" :: d.reachCountLine ::
        (RT ++ d.reachGap)) ++ "C #STORAGES" :: d.storageBody) ++
        "C #INFLOW/OUTFLOW" :: d.ioBody).length := by
    rw [e5]
    exact findMarker_layout hA5 (by decide)

  have g1 : getEx (renderCatg d) (d.intro.length + 1) = .ok d.nodeCountLine := by
    have e : renderCatg d = (d.intro ++ ["C #NODES"]) ++ d.nodeCountLine ::
        (NP ++ (d.nodeGap ++ ("C #REACHES" :: d.reachCountLine ::
          (RT ++ (d.reachGap ++ ("C #STORAGES" :: (d.storageBody ++
            ("C #INFLOW/OUTFLOW" :: (d.ioBody ++
              ("C END RORB_GE" :: d.endBody)))))))))) := by
      simp [renderCatg, List.append_assoc]
    have el : d.intro.length + 1 = (d.intro ++ ["C #NODES"]).length := by simp
    rw [e, el]
    exact getEx_layout
  have nl : parseNodesLoop (renderCatg d) (d.intro.length + 2)
      d.nodePairs.length = .ok (d.nodePairs.map nodeOfPair,
        d.intro.length + 2 + 2 * d.nodePairs.length) := by
    have e : renderCatg d = (d.intro ++ ["C #NODES", d.nodeCountLine]) ++
        ((d.nodePairs.map pairLines).flatten ++ (d.nodeGap ++
          ("C #REACHES" :: d.reachCountLine :: (RT ++ (d.reachGap ++
            ("C #STORAGES" :: (d.storageBody ++ ("C #INFLOW/OUTFLOW" ::
              (d.ioBody ++ ("C END RORB_GE" :: d.endBody)))))))))) := by
      simp [renderCatg, List.append_assoc]
    have el : d.intro.length + 2 =
        (d.intro ++ ["C #NODES", d.nodeCountLine]).length := by simp
    rw [e, el]
    exact parseNodesLoop_layout d.nodePairs _ _ hok1

  have sl1 : pySlice (renderCatg d)
      (d.intro.length + 2 + 2 * d.nodePairs.length)
      (d.intro ++ "C #NODES" :: d.nodeCountLine ::
        (NP ++ d.nodeGap)).length = d.nodeGap := by
    have e : renderCatg d = (d.intro ++ ["C #NODES", d.nodeCountLine] ++ NP) ++
        (d.nodeGap ++ ("C #REACHES" :: d.reachCountLine :: (RT ++
          (d.reachGap ++ ("C #STORAGES" :: (d.storageBody ++
            ("C #INFLOW/OUTFLOW" :: (d.ioBody ++
              ("C END RORB_GE" :: d.endBody))))))))) := by
      simp [renderCatg, List.append_assoc]
    have hlenNP : NP.length = 2 * d.nodePairs.length := by
      rw [hNP]
      exact pairLines_flatten_length d.nodePairs
    have el1 : d.intro.length + 2 + 2 * d.nodePairs.length =
        (d.intro ++ ["C #NODES", d.nodeCountLine] ++ NP).length := by
      simp only [List.length_append, List.length_cons, List.length_nil, hlenNP]
      try omega
    have el2 : (d.intro ++ "C #NODES" :: d.nodeCountLine ::
        (NP ++ d.nodeGap)).length =
        (d.intro ++ ["C #NODES", d.nodeCountLine] ++ NP).length +
          d.nodeGap.length := by
      simp only [List.length_append, List.length_cons, List.length_nil]
      try omega
    rw [e, el1, el2]
    exact pySlice_layout _ _ _
  have g2 : getEx (renderCatg d)
      ((d.intro ++ "C #NODES" :: d.nodeCountLine ::
        (NP ++ d.nodeGap)).length + 1) = .ok d.reachCountLine := by
    have e : renderCatg d = ((d.intro ++ "C #NODES" :: d.nodeCountLine ::
        (NP ++ d.nodeGap)) ++ ["C #REACHES"]) ++ d.reachCountLine ::
        (RT ++ (d.reachGap ++ ("C #STORAGES" :: (d.storageBody ++
          ("C #INFLOW/OUTFLOW" :: (d.ioBody ++
            ("C END RORB_GE" :: d.endBody))))))) := by
      simp [renderCatg, List.append_assoc]
    have el : (d.intro ++ "C #NODES" :: d.nodeCountLine ::
        (NP ++ d.nodeGap)).length + 1 =
        ((d.intro ++ "C #NODES" :: d.nodeCountLine ::
          (NP ++ d.nodeGap)) ++ ["C #REACHES"]).length := by
      simp only [List.length_append, List.length_cons, List.length_nil]
      try omega
    rw [e, el]
    exact getEx_layout
  have rl : parseReachesLoop (renderCatg d)
      ((d.intro ++ "C #NODES" :: d.nodeCountLine ::
        (NP ++ d.nodeGap)).length + 2) d.reachTriples.length =
      .ok (d.reachTriples.map reachOfTriple,
        (d.intro ++ "C #NODES" :: d.nodeCountLine ::
          (NP ++ d.nodeGap)).length + 2 + 3 * d.reachTriples.length) := by
    have e : renderCatg d = ((d.intro ++ "C #NODES" :: d.nodeCountLine ::
        (NP ++ d.nodeGap)) ++ ["C #REACHES", d.reachCountLine]) ++
        ((d.reachTriples.map tripleLines).flatten ++ (d.reachGap ++
          ("C #STORAGES" :: (d.storageBody ++ ("C #INFLOW/OUTFLOW" ::
            (d.ioBody ++ ("C END RORB_GE" :: d.endBody))))))) := by
      simp [renderCatg, List.append_assoc]
    have el : (d.intro ++ "C #NODES" :: d.nodeCountLine ::
        (NP ++ d.nodeGap)).length + 2 =
        ((d.intro ++ "C #NODES" :: d.nodeCountLine ::
          (NP ++ d.nodeGap)) ++ ["C #REACHES", d.reachCountLine]).length := by
      simp only [List.length_append, List.length_cons, List.length_nil]
      try omega
    rw [e, el]
    exact parseReachesLoop_layout d.reachTriples _ _ hok2

  have hlenRT : RT.length = 3 * d.reachTriples.length := by
    rw [hRT]
    exact tripleLines_flatten_length d.reachTriples
  have sl2 : pySlice (renderCatg d)
      ((d.intro ++ "C #NODES" :: d.nodeCountLine ::
        (NP ++ d.nodeGap)).length + 2 + 3 * d.reachTriples.length)
      ((d.intro ++ "C #NODES" :: d.nodeCountLine ::
        (NP ++ d.nodeGap)) ++ "C #REACHES" :: d.reachCountLine ::
        (RT ++ d.reachGap)).length = d.reachGap := by
    have e : renderCatg d = ((d.intro ++ "C #NODES" :: d.nodeCountLine ::
        (NP ++ d.nodeGap)) ++ ["C #REACHES", d.reachCountLine] ++ RT) ++
        (d.reachGap ++ ("C #STORAGES" :: (d.storageBody ++
          ("C #INFLOW/OUTFLOW" :: (d.ioBody ++
            ("C END RORB_GE" :: d.endBody)))))) := by
      simp [renderCatg, List.append_assoc]
    have el1 : (d.intro ++ "C #NODES" :: d.nodeCountLine ::
        (NP ++ d.nodeGap)).length + 2 + 3 * d.reachTriples.length =
        ((d.intro ++ "C #NODES" :: d.nodeCountLine ::
          (NP ++ d.nodeGap)) ++ ["C #REACHES", d.reachCountLine] ++ RT).length := by
      simp only [List.length_append, List.length_cons, List.length_nil, hlenRT]
      try omega
    have el2 : ((d.intro ++ "C #NODES" :: d.nodeCountLine ::
        (NP ++ d.nodeGap)) ++ "C #REACHES" :: d.reachCountLine ::
        (RT ++ d.reachGap)).length =
        ((d.intro ++ "C #NODES" :: d.nodeCountLine ::
          (NP ++ d.nodeGap)) ++ ["C #REACHES", d.reachCountLine] ++ RT).length +
          d.reachGap.length := by
      simp only [List.length_append, List.length_cons, List.length_nil]
      try omega
    rw [e, el1, el2]
    exact pySlice_layout _ _ _
  have sl3 : pySlice (renderCatg d)
      ((d.intro ++ "C #NODES" :: d.nodeCountLine ::
        (NP ++ d.nodeGap)) ++ "C #REACHES" :: d.reachCountLine ::
        (RT ++ d.reachGap)).length
      (((d.intro ++ "C #NODES" :: d.nodeCountLine ::
        (NP ++ d.nodeGap)) ++ "C #REACHES" :: d.reachCountLine ::
        (RT ++ d.reachGap)) ++ "C #STORAGES" :: d.storageBody).length =
      "C #STORAGES" :: d.storageBody := by
    have e : renderCatg d = ((d.intro ++ "C #NODES" :: d.nodeCountLine ::
        (NP ++ d.nodeGap)) ++ "C #REACHES" :: d.reachCountLine ::
        (RT ++ d.reachGap)) ++ (("C #STORAGES" :: d.storageBody) ++
        ("C #INFLOW/OUTFLOW" :: (d.ioBody ++
          ("C END RORB_GE" :: d.endBody)))) := by
      simp [renderCatg, List.append_assoc]
    have el2 : (((d.intro ++ "C #NODES" :: d.nodeCountLine ::
        (NP ++ d.nodeGap)) ++ "C #REACHES" :: d.reachCountLine ::
        (RT ++ d.reachGap)) ++ "C #STORAGES" :: d.storageBody).length =
        ((d.intro ++ "C #NODES" :: d.nodeCountLine ::
          (NP ++ d.nodeGap)) ++ "C #REACHES" :: d.reachCountLine ::
          (RT ++ d.reachGap)).length +
          ("C #STORAGES" :: d.storageBody).length := by
      simp only [List.length_append, List.length_cons, List.length_nil]
      try omega
    rw [e, el2]
    exact pySlice_layout _ _ _

  have sl4 : pySlice (renderCatg d)
      (((d.intro ++ "C #NODES" :: d.nodeCountLine ::
        (NP ++ d.nodeGap)) ++ "C #REACHES" :: d.reachCountLine ::
        (RT ++ d.reachGap)) ++ "C #STORAGES" :: d.storageBody).length
      ((((d.intro ++ "C #NODES" :: d.nodeCountLine ::
        (NP ++ d.nodeGap)) ++ "C #REACHES" :: d.reachCountLine ::
        (RT ++ d.reachGap)) ++ "C #STORAGES" :: d.storageBody) ++
        "C #INFLOW/OUTFLOW" :: d.ioBody).length =
      "C #INFLOW/OUTFLOW" :: d.ioBody := by
    have e : renderCatg d = (((d.intro ++ "C #NODES" :: d.nodeCountLine ::
        (NP ++ d.nodeGap)) ++ "C #REACHES" :: d.reachCountLine ::
        (RT ++ d.reachGap)) ++ "C #STORAGES" :: d.storageBody) ++
        (("C #INFLOW/OUTFLOW" :: d.ioBody) ++
          ("C END RORB_GE" :: d.endBody)) := by
      simp [renderCatg, List.append_assoc]
    have el2 : ((((d.intro ++ "C #NODES" :: d.nodeCountLine ::
        (NP ++ d.nodeGap)) ++ "C #REACHES" :: d.reachCountLine ::
        (RT ++ d.reachGap)) ++ "C #STORAGES" :: d.storageBody) ++
        "C #INFLOW/OUTFLOW" :: d.ioBody).length =
        (((d.intro ++ "C #NODES" :: d.nodeCountLine ::
          (NP ++ d.nodeGap)) ++ "C #REACHES" :: d.reachCountLine ::
          (RT ++ d.reachGap)) ++ "C #STORAGES" :: d.storageBody).length +
          ("C #INFLOW/OUTFLOW" :: d.ioBody).length := by
      simp only [List.length_append, List.length_cons, List.length_nil]
      try omega
    rw [e, el2]
    exact pySlice_layout _ _ _
  have dr5 : (renderCatg d).drop
      ((((d.intro ++ "C #NODES" :: d.nodeCountLine ::
        (NP ++ d.nodeGap)) ++ "C #REACHES" :: d.reachCountLine ::
        (RT ++ d.reachGap)) ++ "C #STORAGES" :: d.storageBody) ++
        "C #INFLOW/OUTFLOW" :: d.ioBody).length =
      "C END RORB_GE" :: d.endBody := by
    rw [e5]
    exact drop_layout _ _

  have tk1 : (renderCatg d).take d.intro.length = d.intro := by
    rw [e1]
    exact List.take_left _ _
  have gd1 : (renderCatg d).getD d.intro.length "" = "C #NODES" := by
    rw [e1]
    exact getD_layout_zero
  have gd2 : (renderCatg d).getD
      (d.intro ++ "C #NODES" :: d.nodeCountLine ::
        (NP ++ d.nodeGap)).length "" = "C #REACHES" := by
    rw [e2]
    exact getD_layout_zero
  unfold catgRoundtrip catgParse
  rw [f1, f2]
  unfold catgParseBody
  simp only [f1, f2, f3, f4, f5, g1, g2, hc1, hc2, nl, sl1, rl, sl2, sl3, sl4,
    dr5, tk1, gd1, gd2, bind, Except.bind, Option.getD, pure, Except.pure]
  simp only [catgWrite]
  rw [flatten_writeNode _ hok1, flatten_writeReach _ hok2]
  rw [beq_iff_eq]
  simp [renderCatg, List.append_assoc]

/-- Claim C1 witness: the round trip on a concrete valid CATG file. -/
theorem C1_witness : catgRoundtrip (renderCatg exCatgShape) = true :=
  C1_theorem exCatgShape (by decide)

/-- Claim C1 counterexample: a well-formed STM file that parses without
error but whose re-serialisation differs from the original, because the
writer joins comma-delimited values with a comma and a space. -/
theorem C1_counterexample :
    isOkB (stmParseLines exStm) = true ∧ stmRoundtrip exStm = false :=
  ⟨by decide, by decide⟩

/-- Claim C2 counterexample: the line 1.0,2.0,3.0,-99 remarks parses to
the claimed values, terminator style and trailing text, but re-serialising
the section with unchanged values does not reproduce the identical line:
the writer joins comma-delimited data with a comma and a space. -/
theorem C2_counterexample :
    (parse_burst_line [] "1.0,2.0,3.0,-99 remarks").data = ["1.0", "2.0", "3.0"] ∧
    (parse_burst_line [] "1.0,2.0,3.0,-99 remarks").terminator_style = "inline" ∧
    (parse_burst_line [] "1.0,2.0,3.0,-99 remarks").inline_comment = "remarks" ∧
    writeSection (parse_burst_line [] "1.0,2.0,3.0,-99 remarks") ≠
      ["1.0,2.0,3.0,-99 remarks"] := by
  refine ⟨by decide, by decide, by decide, by decide⟩

/-- Claim C2 (amended): the line parses to values 1.0, 2.0 and 3.0, inline
terminator style and trailing text remarks, and re-serialising the section
with unchanged values produces the same tokens joined with comma-space
separators: 1.0, 2.0, 3.0, -99 remarks. -/
theorem C2_theorem :
    strip_after_99 "1.0,2.0,3.0,-99 remarks" = ("1.0,2.0,3.0", "remarks", true) ∧
    split_data_line "1.0,2.0,3.0,-99 remarks" = (["1.0", "2.0", "3.0"], ",", true) ∧
    (parse_burst_line [] "1.0,2.0,3.0,-99 remarks").data = ["1.0", "2.0", "3.0"] ∧
    (parse_burst_line [] "1.0,2.0,3.0,-99 remarks").terminator_style = "inline" ∧
    (parse_burst_line [] "1.0,2.0,3.0,-99 remarks").inline_comment = "remarks" ∧
    writeSection (parse_burst_line [] "1.0,2.0,3.0,-99 remarks") =
      ["1.0, 2.0, 3.0, -99 remarks"] := by
  refine ⟨by decide, by decide, by decide, by decide, by decide, by decide⟩

/-- Claim C4: an edited print flag whose integer value lies outside the
valid set leaves the document unchanged, and a value inside the set is
stored; the valid sets are exactly zero, seventy, seventy-one and
seventy-two for nodes and zero and one for reaches. -/
theorem C4_theorem (nodes : List NodeData) (reaches : List ReachData)
    (r : Nat) (text : String) (v : Int)
    (hv : pyInt (pyStrip text) = some v) :
    (¬(v = 0 ∨ v = 70 ∨ v = 71 ∨ v = 72) →
      node_cell_changed nodes r text = nodes) ∧
    ((v = 0 ∨ v = 70 ∨ v = 71 ∨ v = 72) → ∀ (h : r < nodes.length),
      node_cell_changed nodes r text =
        nodes.set r { nodes[r] with print_flag := v }) ∧
    (¬(v = 0 ∨ v = 1) → reach_cell_changed reaches r text = reaches) ∧
    ((v = 0 ∨ v = 1) → ∀ (h : r < reaches.length),
      reach_cell_changed reaches r text =
        reaches.set r { reaches[r] with print_flag := v }) := by
  have hnode : NODE_PRINT_FLAGS.contains v = decide (v = 0 ∨ v = 70 ∨ v = 71 ∨ v = 72) := by
    simp [NODE_PRINT_FLAGS, List.contains, decide_eq_true_eq, or_assoc]
  have hreach : REACH_PRINT_FLAGS.contains v = decide (v = 0 ∨ v = 1) := by
    simp [REACH_PRINT_FLAGS, List.contains, decide_eq_true_eq, or_assoc]
  refine ⟨?_, ?_, ?_, ?_⟩
  · intro hmem
    simp only [node_cell_changed, hv, hnode, decide_eq_true_eq]
    split
    · simp [hmem]
    · rfl
  · intro hmem h
    simp only [node_cell_changed, hv, hnode, decide_eq_true_eq]
    rw [dif_pos h]
    simp [hmem]
  · intro hmem
    simp only [reach_cell_changed, hv, hreach, decide_eq_true_eq]
    split
    · simp [hmem]
    · rfl
  · intro hmem h
    simp only [reach_cell_changed, hv, hreach, decide_eq_true_eq]
    rw [dif_pos h]
    simp [hmem]

/-- Claim C4 witness: on a one-node and one-reach document, the value five
is rejected for a node, the value two is rejected for a reach, and the
value seventy is stored for a node. -/
theorem C4_witness :
    node_cell_changed [{ name := "A" }] 0 "5" = [{ name := "A" }] ∧
    reach_cell_changed [{ name := "R" }] 0 "2" = [{ name := "R" }] ∧
    node_cell_changed [{ name := "A" }] 0 "70" =
      [{ name := "A", print_flag := 70 }] := by
  have h5 := C4_theorem [{ name := "A" }] [{ name := "R" }] 0 "5" 5 (by decide)
  have h2 := C4_theorem [{ name := "A" }] [{ name := "R" }] 0 "2" 2 (by decide)
  have h70 := C4_theorem [{ name := "A" }] [{ name := "R" }] 0 "70" 70 (by decide)
  refine ⟨h5.1 (by decide), h2.2.2.1 (by decide), ?_⟩
  have := h70.2.1 (by simp) (by decide)
  simpa using this

/-- Claim C7: CATG parsing fails with the missing-nodes format error
exactly when no line strips to the C hash NODES marker, fails with the
missing-reaches format error exactly when that marker occurs but no line
strips to the C hash REACHES marker, and when both markers occur it does
not fail with either format error. -/
theorem C7_theorem (lines : List String) :
    (catgParse lines = .error .missingNodesMarker ↔
      findMarker lines "C #NODES" = none) ∧
    (catgParse lines = .error .missingReachesMarker ↔
      (findMarker lines "C #NODES" ≠ none ∧
       findMarker lines "C #REACHES" = none)) ∧
    ((findMarker lines "C #NODES" ≠ none ∧
      findMarker lines "C #REACHES" ≠ none) →
      catgParse lines ≠ .error .missingNodesMarker ∧
      catgParse lines ≠ .error .missingReachesMarker) := by
  unfold catgParse
  rcases h1 : findMarker lines "C #NODES" with _ | ni
  · simp
  · rcases h2 : findMarker lines "C #REACHES" with _ | ri
    · simp
    · rcases h3 : catgParseBody lines ni ri with _ | c <;> simp [h3]

/-- Claim C7 witness: a file without markers fails with the missing-nodes
error; a file with only the nodes marker fails with the missing-reaches
error; a file with both markers raises neither format error. -/
theorem C7_witness :
    catgParse ["x"] = .error .missingNodesMarker ∧
    catgParse ["C #NODES", "C 0"] = .error .missingReachesMarker ∧
    catgParse ["C #NODES", "C 0", "C #REACHES", "C 0"] ≠
      .error .missingNodesMarker ∧
    catgParse ["C #NODES", "C 0", "C #REACHES", "C 0"] ≠
      .error .missingReachesMarker := by
  have ha := C7_theorem ["x"]
  have hb := C7_theorem ["C #NODES", "C 0"]
  have hc := C7_theorem ["C #NODES", "C 0", "C #REACHES", "C 0"]
  exact ⟨ha.1.mpr (by decide), hb.2.1.mpr (by decide), hc.2.2 ⟨by decide, by decide⟩⟩

/-! Lemmas on the section types and inline comments produced by each
parse block, used for claim C10. -/

theorem parseFreeLine_forall (ty lbl : String) (ls : List String) :
    ∀ s ∈ (parseFreeLine ty lbl ls).1,
      s.section_type = ty ∧ s.inline_comment = "" := by
  cases ls <;> simp [parseFreeLine]

theorem parseStormBlock_forall (ls : List String) (r) (h : parseStormBlock ls = .ok r) :
    ∀ s ∈ r.1, s.section_type = "storm_params" := by
  unfold parseStormBlock at h
  rcases hc : takeComments ls with ⟨cm, rest2⟩
  rw [hc] at h
  rcases rest2 with _ | ⟨line, rest⟩
  · cases h
    simp
  · rcases hs : stormCounts (parse_storm_params_line cm line).data with u | cs <;>
      simp only [hs, bind, Except.bind, pure, Except.pure] at h
    · cases h
    · cases h
      intro s hsm
      rcases List.mem_cons.mp hsm with h | h
      · subst h; rfl
      · simp at h

theorem parseBurstRangesBlock_forall (ls : List String) :
    ∀ s ∈ (parseBurstRangesBlock ls).1, s.section_type = "burst_ranges" := by
  unfold parseBurstRangesBlock
  rcases hc : takeComments ls with ⟨cm, rest2⟩
  rcases rest2 with _ | ⟨line, rest⟩
  · simp
  · intro s hsm
    rcases List.mem_cons.mp hsm with h | h
    · subst h
      unfold parse_burst_line
      split <;> rfl
    · simp at h

theorem parsePluvios_forall (n : Nat) (ls : List String) (p : Nat) :
    ∀ s ∈ (parsePluvios n ls p).1,
      s.section_type = "pluvio_data" ∧ s.inline_comment = "" := by
  induction n generalizing ls p with
  | zero => intro s hs; simp [parsePluvios] at hs
  | succ n ih =>
    intro s hs
    unfold parsePluvios at hs
    rcases ls with _ | ⟨l1, _ | ⟨l2, rest⟩⟩
    · simp at hs
    · simp at hs
    · rcases List.mem_cons.mp hs with h | h
      · subst h; exact ⟨rfl, rfl⟩
      · exact ih rest (p + 1) s h

theorem parseBurstBlocks_forall (ty lbase : String) (n : Nat) (ls : List String)
    (b : Nat) :
    ∀ s ∈ (parseBurstBlocks ty lbase n ls b).1,
      s.section_type = ty ∧ s.inline_comment = "" := by
  induction n generalizing ls b with
  | zero => intro s hs; simp [parseBurstBlocks] at hs
  | succ n ih =>
    intro s hs
    unfold parseBurstBlocks at hs
    rcases hc : takeComments ls with ⟨cm, rest2⟩
    rw [hc] at hs
    rcases rest2 with _ | ⟨dl, rest⟩
    · simp at hs
    · rcases List.mem_cons.mp hs with h | h
      · subst h; exact ⟨rfl, rfl⟩
      · exact ih _ (b + 1) s h

theorem parseHydroHeaderBlock_forall (ls : List String) :
    ∀ s ∈ (parseHydroHeaderBlock ls).1, s.section_type = "hydro_time_ranges" := by
  unfold parseHydroHeaderBlock
  rcases hc : takeComments ls with ⟨cm, rest2⟩
  rcases rest2 with _ | ⟨line, rest⟩
  · simp
  · intro s hsm
    rcases List.mem_cons.mp hsm with h | h
    · subst h; rfl
    · simp at h

theorem parseHydros_forall (n : Nat) (ls : List String) :
    ∀ s ∈ (parseHydros n ls).1,
      s.section_type = "hydro_station" ∧ s.inline_comment = "" := by
  induction n generalizing ls with
  | zero => intro s hs; simp [parseHydros] at hs
  | succ n ih =>
    intro s hs
    unfold parseHydros at hs
    rcases ls with _ | ⟨l1, _ | ⟨dl, rest⟩⟩
    · simp at hs
    · simp at hs
    · rcases List.mem_cons.mp hs with h | h
      · subst h; exact ⟨rfl, rfl⟩
      · exact ih _ s h

theorem parseTrailerBlock_forall (ls : List String) :
    ∀ s ∈ parseTrailerBlock ls, s.section_type = "trailer" := by
  cases ls <;> simp [parseTrailerBlock]

theorem writeBurstInline (cm dat : List String) (ic : String) :
    writeSection
      { section_type := "burst_ranges", delimiter := some ","
        terminator_style := "inline", comment_lines := cm, data := dat
        inline_comment := ic, label := "Burst Time Ranges" } =
    cm ++ [if ic = "" then String.intercalate ", " dat ++ ", " ++ "-99"
           else String.intercalate ", " dat ++ ", " ++ "-99" ++ " " ++ ic] := by
  by_cases h : ic = "" <;> simp [writeSection, join_sep, h]

/-- Claim C10: for pluviograph-data, sub-area-rainfall,
pluviograph-reference and hydrograph-station sections, trailing text after
an inline sentinel is discarded at parse time and the writer output does
not depend on a stored inline comment for those types; the
storm-parameters and burst-ranges sections store the trailing text and the
writer appends it after the sentinel. -/
theorem C10_theorem :
    (∀ (lines : List String) (d : StmDoc), stmParseLines lines = .ok d →
      ∀ s ∈ d.sections,
        (s.section_type = "pluvio_data" ∨ s.section_type = "subarea_rain" ∨
         s.section_type = "pluvio_ref" ∨ s.section_type = "hydro_station") →
        s.inline_comment = "") ∧
    (∀ (s : Section) (c : String),
      (s.section_type = "pluvio_data" ∨ s.section_type = "subarea_rain" ∨
       s.section_type = "pluvio_ref" ∨ s.section_type = "hydro_station") →
      writeSection { s with inline_comment := c } = writeSection s) ∧
    (∀ (comments : List String) (line : String),
      (parse_storm_params_line comments line).inline_comment =
        (strip_after_99 line).2.1 ∧
      writeSection (parse_storm_params_line comments line) =
        comments ++ [if (strip_after_99 line).2.1 = ""
          then String.intercalate ", "
            (parse_storm_params_line comments line).data ++ ", " ++ "-99"
          else String.intercalate ", "
            (parse_storm_params_line comments line).data ++ ", " ++ "-99" ++
            " " ++ (strip_after_99 line).2.1]) ∧
    (∀ (comments : List String) (line : String), hasSub line "-99" = true →
      writeSection (parse_burst_line comments line) =
        comments ++ [if (parse_burst_line comments line).inline_comment = ""
          then String.intercalate ", "
            (parse_burst_line comments line).data ++ ", " ++ "-99"
          else String.intercalate ", "
            (parse_burst_line comments line).data ++ ", " ++ "-99" ++
            " " ++ (parse_burst_line comments line).inline_comment]) := by
  refine ⟨?_, ?_, ?_, ?_⟩
  · intro lines d h s hs hty
    unfold stmParseLines at h
    rcases h2 : parseStormBlock (parseFreeLine "model_mode" "Model Mode"
        (parseFreeLine "event_header" "Event Description" lines).2).2 with u | r2 <;>
      simp only [h2, bind, Except.bind, pure, Except.pure] at h
    · cases h
    · cases h
      simp only [List.mem_append, or_assoc] at hs
      rcases hs with h1 | h1 | h1 | h1 | h1 | h1 | h1 | h1 | h1 | h1
      · have ht := (parseFreeLine_forall _ _ _ s h1).1
        rw [ht] at hty
        rcases hty with h | h | h | h <;> exact absurd h (by decide)
      · have ht := (parseFreeLine_forall _ _ _ s h1).1
        rw [ht] at hty
        rcases hty with h | h | h | h <;> exact absurd h (by decide)
      · have ht := parseStormBlock_forall _ _ h2 s h1
        rw [ht] at hty
        rcases hty with h | h | h | h <;> exact absurd h (by decide)
      · have ht := parseBurstRangesBlock_forall _ s h1
        rw [ht] at hty
        rcases hty with h | h | h | h <;> exact absurd h (by decide)
      · exact (parsePluvios_forall _ _ _ s h1).2
      · exact (parseBurstBlocks_forall _ _ _ _ _ s h1).2
      · exact (parseBurstBlocks_forall _ _ _ _ _ s h1).2
      · have ht := parseHydroHeaderBlock_forall _ s h1
        rw [ht] at hty
        rcases hty with h | h | h | h <;> exact absurd h (by decide)
      · exact (parseHydros_forall _ _ s h1).2
      · have ht := parseTrailerBlock_forall _ s h1
        rw [ht] at hty
        rcases hty with h | h | h | h <;> exact absurd h (by decide)
  · intro s c hty
    rcases hty with h | h | h | h <;>
      simp [writeSection, write_data_line, join_sep, h]
  · intro comments line
    refine ⟨rfl, ?_⟩
    by_cases hic : (strip_after_99 line).2.1 = "" <;>
      simp [writeSection, parse_storm_params_line, join_sep, hic]
  · intro comments line hsub
    unfold parse_burst_line
    rw [hsub]
    exact writeBurstInline _ _ _

/-- Claim C10 witness: the sub-area section parsed from a file whose data
lines carry trailing text has an empty inline comment; the writer output
of a sub-area section ignores a stored inline comment; a storm-parameters
line and a burst-ranges line keep their trailing text through parse and
write. -/
theorem C10_witness :
    ({ mkSA 1 ["1.0"] with comment_lines := ["C sub"] } : Section).inline_comment
      = "" ∧
    writeSection { mkSA 1 ["1.0"] with inline_comment := "junk" } =
      writeSection (mkSA 1 ["1.0"]) ∧
    (parse_storm_params_line [] "1,2,-99 note").inline_comment = "note" ∧
    writeSection (parse_burst_line [] "0,24,-99 note") = ["0, 24, -99 note"] := by
  refine ⟨?_, ?_, ?_, ?_⟩
  · exact C10_theorem.1 exStmTrail exStmTrailDoc (by rfl) _ (by decide)
      (Or.inr (Or.inl rfl))
  · exact C10_theorem.2.1 _ "junk" (Or.inr (Or.inl rfl))
  · exact ((C10_theorem.2.2.1 [] "1,2,-99 note").1).trans (by decide)
  · exact (C10_theorem.2.2.2 [] "0,24,-99 note" (by decide)).trans (by decide)

/-- Claim C9: a node line pair whose first line does not match the node
grammar is retained as a passthrough record carrying the sentinel name and
both raw lines, which the writer emits verbatim; a reach header line that
does not match the reach grammar is consumed without producing any record,
so it is stored in no region. -/
theorem C9_theorem (a b : String) (lines : List String) (idx n : Nat)
    (ha : nodeReMatch a = none)
    (hidx : idx < lines.length)
    (hr : reachReMatch (lines.getD idx "") = none) :
    parseNodePair a b = .ok { raw_line := a, raw_line2 := b, name := "?PARSE_ERR" } ∧
    writeNode { raw_line := a, raw_line2 := b, name := "?PARSE_ERR" } = [a, b] ∧
    parseReachesLoop lines idx (n + 1) = parseReachesLoop lines (idx + 1) n := by
  refine ⟨?_, by simp [writeNode], ?_⟩
  · unfold parseNodePair
    rw [ha]
  · conv_lhs => rw [parseReachesLoop]
    rw [if_neg (by omega)]
    simp only [hr]

/-- Claim C9 witness: a concrete malformed node pair is kept verbatim and
a concrete malformed reach header is dropped while the cursor advances. -/
theorem C9_witness :
    parseNodePair "bad node" "C x" =
      .ok { raw_line := "bad node", raw_line2 := "C x", name := "?PARSE_ERR" } ∧
    writeNode { raw_line := "bad node", raw_line2 := "C x", name := "?PARSE_ERR" } =
      ["bad node", "C x"] ∧
    parseReachesLoop ["bad reach"] 0 1 = parseReachesLoop ["bad reach"] 1 0 := by
  have h := C9_theorem "bad node" "C x" ["bad reach"] 0 0 (by decide)
    (by decide) (by decide)
  exact h

theorem space_not_digit {c : Char} (h : isPySpace c = true) : c.isDigit = false := by
  unfold isPySpace at h
  simp only [Bool.or_eq_true, beq_iff_eq] at h
  rcases h with ((((h | h) | h) | h) | h) | h <;> subst h <;> decide

theorem takeWhile_append_all {p : Char → Bool} {xs ys : List Char}
    (hxs : ∀ c ∈ xs, p c = true)
    (hys : ∀ c, ys.head? = some c → p c = false) :
    (xs ++ ys).takeWhile p = xs ∧ (xs ++ ys).dropWhile p = ys := by
  induction xs with
  | nil =>
    simp only [List.nil_append]
    cases ys with
    | nil => simp
    | cons y ys =>
      have hy := hys y rfl
      simp [List.takeWhile, List.dropWhile, hy]
  | cons x xs ih =>
    have hx := hxs x (List.mem_cons_self _ _)
    have ih2 := ih (fun c hc => hxs c (List.mem_cons_of_mem _ hc))
    simp [List.takeWhile, List.dropWhile, hx, ih2.1, ih2.2]

theorem head_not {A B : List Char} {p q : Char → Bool} (hA : A ≠ [])
    (hmem : ∀ c ∈ A, q c = true) (hopp : ∀ c, q c = true → p c = false) :
    ∀ c, (A ++ B).head? = some c → p c = false := by
  intro c hc
  cases A with
  | nil => exact absurd rfl hA
  | cons a A =>
    simp only [List.cons_append, List.head?_cons, Option.some.injEq] at hc
    subst hc
    exact hopp a (hmem a (List.mem_cons_self _ _))

theorem digit_not_space {c : Char} (h : c.isDigit = true) :
    isPySpace c = false := by
  cases hc : isPySpace c
  · rfl
  · rw [space_not_digit hc] at h
    cases h

theorem nodeTailMatch_layout (pre sp val w2 d2 w3 d3 : List Char)
    (hpre : ∀ c, pre.getLast? = some c → isPySpace c = false)
    (hsp1 : sp ≠ []) (hsp2 : ∀ c ∈ sp, isPySpace c = true)
    (hval1 : val ≠ []) (hval2 : ∀ c ∈ val, c.isDigit = true)
    (hw21 : w2 ≠ []) (hw22 : ∀ c ∈ w2, isPySpace c = true)
    (hd21 : d2 ≠ []) (hd22 : ∀ c ∈ d2, c.isDigit = true)
    (hw31 : w3 ≠ []) (hw32 : ∀ c ∈ w3, isPySpace c = true)
    (hd31 : d3 ≠ []) (hd32 : ∀ c ∈ d3, c.isDigit = true) :
    nodeTailMatch (pre ++ sp ++ val ++ w2 ++ d2 ++ w3 ++ d3).asString =
      some (pre, sp, val, w2 ++ d2 ++ w3 ++ d3, []) := by
  have hrevne : ∀ (l : List Char), l ≠ [] → l.reverse ≠ [] := by
    intro l hl
    simpa using hl
  have A1 : ((pre ++ (sp ++ (val ++ (w2 ++ (d2 ++ (w3 ++ d3)))))).asString).toList.reverse =
      d3.reverse ++ (w3.reverse ++ (d2.reverse ++ (w2.reverse ++
        (val.reverse ++ (sp.reverse ++ pre.reverse))))) := by
    show (pre ++ (sp ++ (val ++ (w2 ++ (d2 ++ (w3 ++ d3)))))).reverse = _
    simp [List.reverse_append, List.append_assoc]
  have memr : ∀ (l : List Char) (p : Char → Bool), (∀ c ∈ l, p c = true) →
      ∀ c ∈ l.reverse, p c = true := by
    intro l p hp c hc
    exact hp c (List.mem_reverse.mp hc)
  have T0 : (d3.reverse ++ (w3.reverse ++ (d2.reverse ++ (w2.reverse ++
      (val.reverse ++ (sp.reverse ++ pre.reverse)))))).takeWhile isPySpace
      = [] := by
    have h := @takeWhile_append_all isPySpace ([] : List Char)
      (d3.reverse ++ (w3.reverse ++ (d2.reverse ++ (w2.reverse ++
        (val.reverse ++ (sp.reverse ++ pre.reverse))))))
      (by simp)
      (head_not (hrevne _ hd31) (memr _ _ hd32) (fun c h => digit_not_space h))
    simpa using h.1
  have T1 : (d3.reverse ++ (w3.reverse ++ (d2.reverse ++ (w2.reverse ++
      (val.reverse ++ (sp.reverse ++ pre.reverse)))))).takeWhile Char.isDigit
      = d3.reverse := by
    exact (takeWhile_append_all (memr _ _ hd32)
      (head_not (hrevne _ hw31) (memr _ _ hw32)
        (fun c h => space_not_digit h))).1
  have T2 : (w3.reverse ++ (d2.reverse ++ (w2.reverse ++
      (val.reverse ++ (sp.reverse ++ pre.reverse))))).takeWhile isPySpace
      = w3.reverse := by
    exact (takeWhile_append_all (memr _ _ hw32)
      (head_not (hrevne _ hd21) (memr _ _ hd22)
        (fun c h => digit_not_space h))).1
  have T3 : (d2.reverse ++ (w2.reverse ++
      (val.reverse ++ (sp.reverse ++ pre.reverse)))).takeWhile Char.isDigit
      = d2.reverse := by
    exact (takeWhile_append_all (memr _ _ hd22)
      (head_not (hrevne _ hw21) (memr _ _ hw22)
        (fun c h => space_not_digit h))).1
  have T4 : (w2.reverse ++ (val.reverse ++ (sp.reverse ++ pre.reverse))).takeWhile
      isPySpace = w2.reverse := by
    exact (takeWhile_append_all (memr _ _ hw22)
      (head_not (hrevne _ hval1) (memr _ _ hval2)
        (fun c h => digit_not_space h))).1
  have T5 : (val.reverse ++ (sp.reverse ++ pre.reverse)).takeWhile Char.isDigit
      = val.reverse := by
    exact (takeWhile_append_all (memr _ _ hval2)
      (head_not (hrevne _ hsp1) (memr _ _ hsp2)
        (fun c h => space_not_digit h))).1
  have T6 : (sp.reverse ++ pre.reverse).takeWhile isPySpace = sp.reverse := by
    refine (takeWhile_append_all (memr _ _ hsp2) ?_).1
    intro c hc
    rw [List.head?_reverse] at hc
    exact hpre c hc
  have hEm : ∀ (l : List Char), l ≠ [] → l.reverse.isEmpty = false := by
    intro l hl
    simp [hl]
  unfold nodeTailMatch
  simp only [A1, T0, List.length_nil, List.drop_zero, T1, T2, T3, T4, T5, T6,
    List.drop_left, hEm _ hd31, hEm _ hd21, hEm _ hval1, hEm _ hw31,
    hEm _ hw21, hEm _ hsp1, Bool.false_eq_true, if_false,
    List.reverse_reverse, List.reverse_append, List.reverse_nil,
    List.append_assoc]

/-- Claim C3 counterexample: a genuine node line whose print-flag field
(spacing plus value) occupies 4 characters but which carries one trailing
space; patching the flag from 0 to 70 drops the trailing space, so the
patched line is shorter than the original. -/
theorem C3_counterexample :
    (nodeReMatch exC3line).isSome = true ∧
    nodeTailMatch exC3line =
      some ("C 1 1.0 2.0 1.0 0 0 2 N 0.5 0.0 0.0".toList, "   ".toList,
        ['0'], "  0  0".toList, [' ']) ∧
    patch_node_print_flag exC3line 70 =
      "C 1 1.0 2.0 1.0 0 0 2 N 0.5 0.0 0.0  70  0  0" ∧
    (patch_node_print_flag exC3line 70).length ≠ exC3line.length := by
  refine ⟨by decide, by decide, by decide, by decide⟩

/-- Claim C3 (amended): on a node line that ends directly after the three
trailing integers (no trailing whitespace), whose print-flag field of
spacing plus the value 0 occupies 4 characters, patching the flag to 70
yields the prefix, then the field rewritten as two spaces and 70, then the
unchanged suffix, and the total length is preserved. -/
theorem C3_theorem (pre sp w2 d2 w3 d3 : List Char)
    (hpre : ∀ c, pre.getLast? = some c → isPySpace c = false)
    (hsp1 : sp ≠ []) (hsp2 : ∀ c ∈ sp, isPySpace c = true)
    (hw21 : w2 ≠ []) (hw22 : ∀ c ∈ w2, isPySpace c = true)
    (hd21 : d2 ≠ []) (hd22 : ∀ c ∈ d2, c.isDigit = true)
    (hw31 : w3 ≠ []) (hw32 : ∀ c ∈ w3, isPySpace c = true)
    (hd31 : d3 ≠ []) (hd32 : ∀ c ∈ d3, c.isDigit = true)
    (hwidth : sp.length = 3) :
    patch_node_print_flag (pre ++ sp ++ ['0'] ++ w2 ++ d2 ++ w3 ++ d3).asString 70
      = (pre ++ [' ', ' ', '7', '0'] ++ (w2 ++ d2 ++ w3 ++ d3)).asString ∧
    (patch_node_print_flag (pre ++ sp ++ ['0'] ++ w2 ++ d2 ++ w3 ++ d3).asString 70).length
      = ((pre ++ sp ++ ['0'] ++ w2 ++ d2 ++ w3 ++ d3).asString).length := by
  have hL := nodeTailMatch_layout pre sp ['0'] w2 d2 w3 d3 hpre hsp1 hsp2
    (by decide) (by decide) hw21 hw22 hd21 hd22 hw31 hw32 hd31 hd32
  have h70 : (toString (70 : Int)).toList = ['7', '0'] := by rfl
  have h70l : (toString (70 : Int)).length = 2 := by rfl
  have h1 : patch_node_print_flag (pre ++ sp ++ ['0'] ++ w2 ++ d2 ++ w3 ++ d3).asString 70
      = (pre ++ [' ', ' ', '7', '0'] ++ (w2 ++ d2 ++ w3 ++ d3)).asString := by
    unfold patch_node_print_flag
    rw [hL]
    dsimp only
    rw [h70, h70l, hwidth]
    simp [List.append_assoc, List.replicate]
  refine ⟨h1, ?_⟩
  rw [h1]
  show (pre ++ [' ', ' ', '7', '0'] ++ (w2 ++ d2 ++ w3 ++ d3)).length
    = (pre ++ sp ++ ['0'] ++ w2 ++ d2 ++ w3 ++ d3).length
  simp only [List.length_append, List.length_cons, List.length_nil, hwidth]
  omega

/-- Claim C3 witness: the amended theorem applied to a concrete node line
without trailing whitespace; the flag field is three spaces and 0, the
patched line keeps its length. -/
theorem C3_witness :
    ("   ".toList : List Char).length = 3 ∧
    patch_node_print_flag exC3lineG 70
      = ("C 1 1.0 2.0 1.0 0 0 2 N 0.5 0.0 0.0".toList ++ [' ', ' ', '7', '0']
          ++ ("  ".toList ++ ['0'] ++ "  ".toList ++ ['0'])).asString ∧
    (patch_node_print_flag exC3lineG 70).length = exC3lineG.length := by
  have h := C3_theorem "C 1 1.0 2.0 1.0 0 0 2 N 0.5 0.0 0.0".toList "   ".toList
    "  ".toList ['0'] "  ".toList ['0']
    (by intro c hc
        rw [show ("C 1 1.0 2.0 1.0 0 0 2 N 0.5 0.0 0.0".toList).getLast? = some '0' from rfl] at hc
        injection hc with h0
        subst h0
        decide)
    (by decide) (by decide) (by decide) (by decide) (by decide) (by decide)
    (by decide) (by decide) (by decide) (by decide) (by decide)
  exact ⟨rfl, h.1, h.2⟩

theorem countType_pyInsert (l : List Section) (n : Nat) (x : Section) (t : String) :
    countType (pyInsert l n x) t
      = countType l t + (if x.section_type == t then 1 else 0) := by
  unfold countType pyInsert
  rw [List.countP_append]
  conv_rhs => rw [← List.take_append_drop n l, List.countP_append]
  simp only [List.countP_cons]
  omega

theorem getSome_countP {l : List Section} {j : Nat} {s : Section}
    (p : Section → Bool) (h : l.get? j = some s) :
    l.countP p = (l.eraseIdx j).countP p + (if p s then 1 else 0) := by
  induction l generalizing j with
  | nil => cases h
  | cons a l ih =>
    cases j with
    | zero =>
      simp only [List.get?_cons_zero, Option.some.injEq] at h
      subst h
      simp [List.countP_cons, List.eraseIdx]
    | succ j =>
      simp only [List.get?_cons_succ] at h
      have h2 := ih h
      simp only [List.eraseIdx_cons_succ, List.countP_cons, h2]
      omega

theorem flIAux_shift (secs : List Section) (t : String) :
    ∀ (i : Nat) (acc : Int),
      flIAux secs t (i + 1) (acc + 1) = flIAux secs t i acc + 1 := by
  induction secs with
  | nil => intro i acc; rfl
  | cons s rest ih =>
    intro i acc
    show flIAux rest t (i + 1 + 1)
        (if s.section_type == t then ((i + 1 : Nat) : Int) else acc + 1)
      = flIAux rest t (i + 1) (if s.section_type == t then (i : Int) else acc) + 1
    have h1 : (if s.section_type == t then ((i + 1 : Nat) : Int) else acc + 1)
        = (if s.section_type == t then (i : Int) else acc) + 1 := by
      cases hm : s.section_type == t <;> simp <;> push_cast <;> ring
    rw [h1, ih]

theorem flIAux_acc (secs : List Section) (t : String) :
    ∀ (i : Nat) (a b : Int), 0 < countType secs t →
      flIAux secs t i a = flIAux secs t i b := by
  induction secs with
  | nil => intro i a b h; simp [countType] at h
  | cons s rest ih =>
    intro i a b h
    show flIAux rest t (i + 1) (if s.section_type == t then (i : Int) else a)
      = flIAux rest t (i + 1) (if s.section_type == t then (i : Int) else b)
    cases hm : s.section_type == t with
    | true => simp
    | false =>
      simp only [Bool.false_eq_true, if_false]
      have hcnt : 0 < countType rest t := by
        unfold countType at h ⊢
        rw [List.countP_cons] at h
        simp only [hm, Bool.false_eq_true, if_false] at h
        omega
      exact ih (i + 1) a b hcnt

theorem flIAux_none (secs : List Section) (t : String) :
    ∀ (i : Nat) (acc : Int), countType secs t = 0 → flIAux secs t i acc = acc := by
  induction secs with
  | nil => intro i acc _; rfl
  | cons s rest ih =>
    intro i acc h
    have hc : countType (s :: rest) t
        = countType rest t + (if s.section_type == t then 1 else 0) := by
      unfold countType
      rw [List.countP_cons]
    cases hm : s.section_type == t with
    | true => rw [hc, hm] at h; simp at h
    | false =>
      show flIAux rest t (i + 1) (if s.section_type == t then (i : Int) else acc) = acc
      rw [hm]
      simp only [if_neg (by decide : ¬ (false = true))]
      exact ih (i + 1) acc (by rw [hc, hm] at h; simpa using h)

theorem find_last_index_cons (s : Section) (rest : List Section) (t : String) :
    find_last_index (s :: rest) t =
      if 0 < countType rest t then find_last_index rest t + 1
      else if s.section_type == t then 0 else -1 := by
  unfold find_last_index
  show flIAux rest t 1 (if s.section_type == t then ((0 : Nat) : Int) else -1) = _
  by_cases hc : 0 < countType rest t
  · rw [if_pos hc]
    rw [flIAux_acc rest t 1 _ ((-1) + 1) hc]
    have h2 := flIAux_shift rest t 0 (-1)
    simpa using h2
  · rw [if_neg hc]
    have hz : countType rest t = 0 := by omega
    rw [flIAux_none rest t 1 _ hz]
    cases hm : s.section_type == t <;> simp

theorem find_last_index_spec (secs : List Section) (t : String) :
    0 < countType secs t →
      0 ≤ find_last_index secs t ∧
      ∃ s, secs.get? (find_last_index secs t).toNat = some s ∧
        (s.section_type == t) = true := by
  induction secs with
  | nil => intro h; simp [countType] at h
  | cons a rest ih =>
    intro h
    rw [find_last_index_cons]
    by_cases hc : 0 < countType rest t
    · rw [if_pos hc]
      obtain ⟨h1, s, h2, h3⟩ := ih hc
      refine ⟨by omega, s, ?_, h3⟩
      have h4 : (find_last_index rest t + 1).toNat
          = (find_last_index rest t).toNat + 1 := by omega
      rw [h4, List.get?_cons_succ]
      exact h2
    · rw [if_neg hc]
      have hz : countType rest t = 0 := by omega
      have hcc : countType (a :: rest) t
          = countType rest t + (if a.section_type == t then 1 else 0) := by
        unfold countType
        rw [List.countP_cons]
      cases hm : a.section_type == t with
      | false => rw [hcc, hm, hz] at h; simp at h
      | true =>
        rw [if_pos rfl]
        exact ⟨by omega, a, by simp, hm⟩

theorem countType_removeAt (secs : List Section) (t u : String) :
    countType (if find_last_index secs t ≥ 0
        then secs.eraseIdx (find_last_index secs t).toNat else secs) u
      = (if t = u then countType secs u - 1 else countType secs u) := by
  by_cases hc : 0 < countType secs t
  · obtain ⟨h1, s, h2, h3⟩ := find_last_index_spec secs t hc
    rw [if_pos (by omega : find_last_index secs t ≥ 0)]
    have he := getSome_countP (fun x => x.section_type == u) h2
    have hst : s.section_type = t := by simpa using h3
    by_cases htu : t = u
    · subst htu
      rw [if_pos rfl]
      unfold countType at hc ⊢
      simp only [hst] at he
      simp only [if_pos (by simp : (t == t) = true)] at he
      omega
    · rw [if_neg htu]
      have hbit : (s.section_type == u) = false := by
        rw [hst]
        exact beq_eq_false_iff_ne.mpr htu
      unfold countType
      simp only [hbit, Bool.false_eq_true, if_false] at he
      omega
  · have hz : countType secs t = 0 := by omega
    have hfl : find_last_index secs t = -1 := flIAux_none secs t 0 (-1) hz
    rw [hfl, if_neg (by decide : ¬ ((-1 : Int) ≥ 0))]
    by_cases htu : t = u
    · subst htu
      rw [if_pos rfl]
      omega
    · rw [if_neg htu]

theorem countType_addPluviosLoop (d : List String) (t : String) :
    ∀ (f cur : Nat) (secs : List Section),
      countType (addPluviosLoop d f cur secs) t
        = countType secs t + (if ("pluvio_data" : String) == t then f else 0) := by
  intro f
  induction f with
  | zero => intro cur secs; simp [addPluviosLoop]
  | succ f ih =>
    intro cur secs
    simp only [addPluviosLoop]
    rw [ih, countType_pyInsert]
    dsimp only
    cases hm : ("pluvio_data" : String) == t <;> simp <;> omega

theorem countType_removeTypeLoop (t u : String) :
    ∀ (f : Nat) (secs : List Section),
      countType (removeTypeLoop t f secs) u
        = (if t = u then countType secs u - f else countType secs u) := by
  intro f
  induction f with
  | zero => intro secs; by_cases h : t = u <;> simp [removeTypeLoop, h]
  | succ f ih =>
    intro secs
    simp only [removeTypeLoop]
    rw [ih]
    have hra := countType_removeAt secs t u
    by_cases h : t = u
    · simp only [if_pos h] at hra ⊢
      rw [hra]
      omega
    · simp only [if_neg h] at hra ⊢
      rw [hra]

theorem countType_addBurstsLoop (dsa dpr : List String) (t : String) :
    ∀ (f cur : Nat) (secs : List Section),
      countType (addBurstsLoop dsa dpr f cur secs) t
        = countType secs t + (if ("subarea_rain" : String) == t then f else 0)
            + (if ("pluvio_ref" : String) == t then f else 0) := by
  intro f
  induction f with
  | zero => intro cur secs; simp [addBurstsLoop]
  | succ f ih =>
    intro cur secs
    simp only [addBurstsLoop]
    rw [ih, countType_pyInsert, countType_pyInsert]
    dsimp only
    cases hm1 : ("subarea_rain" : String) == t <;>
      cases hm2 : ("pluvio_ref" : String) == t <;> simp <;> omega

theorem countType_removeBurstsLoop (u : String) :
    ∀ (f : Nat) (secs : List Section),
      countType (removeBurstsLoop f secs) u
        = (if "subarea_rain" = u then countType secs u - f
           else if "pluvio_ref" = u then countType secs u - f
           else countType secs u) := by
  intro f
  induction f with
  | zero =>
    intro secs
    by_cases h1 : ("subarea_rain" : String) = u <;>
      by_cases h2 : ("pluvio_ref" : String) = u <;>
      simp [removeBurstsLoop, h1, h2]
  | succ f ih =>
    intro secs
    simp only [removeBurstsLoop]
    rw [ih]
    have hr1 := countType_removeAt secs "subarea_rain" u
    have hr2 := countType_removeAt
      (if find_last_index secs "subarea_rain" ≥ 0
        then secs.eraseIdx (find_last_index secs "subarea_rain").toNat else secs)
      "pluvio_ref" u
    by_cases h1 : ("subarea_rain" : String) = u
    · have h2 : ¬ (("pluvio_ref" : String) = u) := by
        rw [← h1]; decide
      simp only [if_pos h1, if_neg h2] at hr1 hr2 ⊢
      rw [hr2, hr1]
      omega
    · by_cases h2 : ("pluvio_ref" : String) = u
      · simp only [if_pos h2, if_neg h1] at hr1 hr2 ⊢
        rw [hr2, hr1]
        omega
      · simp only [if_neg h1, if_neg h2] at hr1 hr2 ⊢
        rw [hr2, hr1]

theorem countType_mapFirst (p : Section → Bool) (f : Section → Section)
    (hf : ∀ s, (f s).section_type = s.section_type)
    (l : List Section) (u : String) :
    countType (mapFirst p f l) u = countType l u := by
  induction l with
  | nil => rfl
  | cons s rest ih =>
    show countType (if p s then f s :: rest else s :: mapFirst p f rest) u = _
    by_cases hp : p s
    · simp only [if_pos hp]
      unfold countType
      simp only [List.countP_cons, hf s]
    · simp only [if_neg hp]
      unfold countType at ih ⊢
      simp only [List.countP_cons, ih]

theorem countType_relabelLoop (t base : String) :
    ∀ (b : Nat) (l : List Section) (u : String),
      countType (relabelLoop t base b l) u = countType l u := by
  intro b l
  induction l generalizing b with
  | nil => intro u; rfl
  | cons s rest ih =>
    intro u
    show countType (if s.section_type == t
        then { s with label := base ++ toString (b + 1) } :: relabelLoop t base (b + 1) rest
        else s :: relabelLoop t base b rest) u = _
    by_cases hm : s.section_type == t
    · simp only [if_pos hm]
      unfold countType at ih ⊢
      simp only [List.countP_cons, ih]
    · simp only [if_neg hm]
      unfold countType at ih ⊢
      simp only [List.countP_cons, ih]

theorem countType_sync_storm_params (secs : List Section) (u : String) :
    countType (sync_storm_params secs) u = countType secs u := by
  unfold sync_storm_params
  cases h : firstWith (isType "storm_params") secs with
  | none => rfl
  | some sp =>
    dsimp only
    rw [countType_relabelLoop, countType_relabelLoop, countType_mapFirst]
    intro s
    rfl

/-- Claim C8: if the burst-count or pluviograph-count token of the
storm-parameters data is not an integer, the count-driven resize returns
the section list unchanged; when both tokens are integers the final
sub-area-rainfall count is the burst target clamped to zero and two
hundred, and the final pluviograph-data count is the pluviograph target
clamped to zero and five hundred. -/
theorem C8_theorem (secs : List Section) (sp : Section)
    (hsp : firstWith (isType "storm_params") secs = some sp)
    (hlen : 4 ≤ sp.data.length) :
    (pyInt (sp.data.getD 2 "") = none → sync_sections_to_params secs = secs) ∧
    (∀ tb : Int, pyInt (sp.data.getD 2 "") = some tb →
      pyInt (sp.data.getD 3 "") = none → sync_sections_to_params secs = secs) ∧
    (∀ tb tp : Int, pyInt (sp.data.getD 2 "") = some tb →
      pyInt (sp.data.getD 3 "") = some tp →
      countType (sync_sections_to_params secs) "subarea_rain"
        = (min (max tb 0) 200).toNat ∧
      countType (sync_sections_to_params secs) "pluvio_data"
        = (min (max tp 0) 500).toNat) := by
  have e1 : (("pluvio_data" : String) == "subarea_rain") = false := by decide
  have e2 : (("pluvio_data" : String) == "pluvio_data") = true := by decide
  have e3 : (("subarea_rain" : String) == "subarea_rain") = true := by decide
  have e4 : (("subarea_rain" : String) == "pluvio_data") = false := by decide
  have e5 : (("pluvio_ref" : String) == "subarea_rain") = false := by decide
  have e6 : (("pluvio_ref" : String) == "pluvio_data") = false := by decide
  have q1 : (("pluvio_data" : String) = "subarea_rain") = False := eq_false (by decide)
  have q2 : (("pluvio_data" : String) = "pluvio_data") = True := eq_true rfl
  have q3 : (("subarea_rain" : String) = "subarea_rain") = True := eq_true rfl
  have q4 : (("subarea_rain" : String) = "pluvio_data") = False := eq_false (by decide)
  have q5 : (("pluvio_ref" : String) = "subarea_rain") = False := eq_false (by decide)
  have q6 : (("pluvio_ref" : String) = "pluvio_data") = False := eq_false (by decide)
  refine ⟨?_, ?_, ?_⟩
  · intro h2
    unfold sync_sections_to_params
    rw [hsp]
    dsimp only
    rw [if_neg (by omega), h2]
  · intro tb h2 h3
    unfold sync_sections_to_params
    rw [hsp]
    dsimp only
    rw [if_neg (by omega), h2]
    dsimp only
    rw [h3]
  · intro tb tp h2 h3
    unfold sync_sections_to_params
    rw [hsp]
    dsimp only
    rw [if_neg (by omega), h2]
    dsimp only
    rw [h3]
    dsimp only
    constructor
    · rw [countType_sync_storm_params, countType_mapFirst]
      · simp only [countType_removeBurstsLoop, countType_addBurstsLoop,
          countType_removeTypeLoop, countType_addPluviosLoop, e1, e2, e3, e4,
          e5, e6, q1, q2, q3, q4, q5, q6, Bool.false_eq_true,
          if_true, if_false]
        omega
      · intro s
        rfl
    · rw [countType_sync_storm_params, countType_mapFirst]
      · simp only [countType_removeBurstsLoop, countType_addBurstsLoop,
          countType_removeTypeLoop, countType_addPluviosLoop, e1, e2, e3, e4,
          e5, e6, q1, q2, q3, q4, q5, q6, Bool.false_eq_true,
          if_true, if_false]
        omega
      · intro s
        rfl

/-- Claim C8 witness: a document whose burst token is not an integer is
returned unchanged, and a document with negative count tokens is resized
to the clamped target of zero sections of each kind. -/
theorem C8_witness :
    pyInt "abc" = none ∧
    sync_sections_to_params exC8a = exC8a ∧
    countType (sync_sections_to_params exC8b) "subarea_rain" = 0 ∧
    countType (sync_sections_to_params exC8b) "pluvio_data" = 0 := by
  have h1 := C8_theorem exC8a (mkSP ["1", "24", "abc", "1", "0"]) (by rfl) (by decide)
  have h2 := (C8_theorem exC8b (mkSP ["1", "24", "-5", "-3", "0"]) (by rfl)
    (by decide)).2.2 (-5) (-3) (by decide) (by decide)
  refine ⟨by decide, h1.1 (by decide), ?_, ?_⟩
  · rw [h2.1]
    decide
  · rw [h2.2]
    decide

theorem firstWith_pyInsert (p : Section → Bool) (l : List Section) (n : Nat)
    (x : Section) (hx : p x = false) :
    firstWith p (pyInsert l n x) = firstWith p l := by
  unfold firstWith pyInsert
  induction l generalizing n with
  | nil =>
    simp [List.find?, hx]
  | cons a l ih =>
    cases n with
    | zero =>
      simp [List.find?, hx]
    | succ n =>
      show List.find? p (a :: (l.take n ++ x :: l.drop n)) = List.find? p (a :: l)
      cases hp : p a with
      | true => simp [List.find?, hp]
      | false =>
        simp only [List.find?, hp]
        exact ih n

theorem firstWith_mapFirst_eq (p : Section → Bool) (f : Section → Section)
    (l : List Section) (hf : ∀ s, p (f s) = p s) :
    firstWith p (mapFirst p f l) = (firstWith p l).map f := by
  unfold firstWith
  induction l with
  | nil => rfl
  | cons s rest ih =>
    show List.find? p (if p s then f s :: rest else s :: mapFirst p f rest)
      = (List.find? p (s :: rest)).map f
    cases hp : p s with
    | true =>
      simp only [if_pos rfl]
      simp [List.find?, hf s, hp]
    | false =>
      simp only [Bool.false_eq_true, if_false]
      simp only [List.find?, hp]
      exact ih

theorem firstWith_mapFirst_ne (p q : Section → Bool) (f : Section → Section)
    (l : List Section) (hq : ∀ s, q (f s) = q s)
    (hpq : ∀ s, p s = true → q s = false) :
    firstWith q (mapFirst p f l) = firstWith q l := by
  unfold firstWith
  induction l with
  | nil => rfl
  | cons s rest ih =>
    show List.find? q (if p s then f s :: rest else s :: mapFirst p f rest)
      = List.find? q (s :: rest)
    cases hp : p s with
    | true =>
      simp only [if_pos rfl]
      simp [List.find?, hq s, hpq s hp]
    | false =>
      simp only [Bool.false_eq_true, if_false]
      simp only [List.find?]
      cases hqs : q s with
      | true => rfl
      | false => exact ih

theorem isType_excl {t u : String} (h : t ≠ u) :
    ∀ s : Section, isType t s = true → isType u s = false := by
  intro s hs
  unfold isType at hs ⊢
  have h2 : s.section_type = t := by simpa using hs
  rw [h2]
  exact beq_eq_false_iff_ne.mpr h

theorem firstWith_relabelLoop (t base u : String) (hut : u ≠ t) :
    ∀ (b : Nat) (l : List Section),
      firstWith (isType u) (relabelLoop t base b l) = firstWith (isType u) l := by
  intro b l
  induction l generalizing b with
  | nil => rfl
  | cons s rest ih =>
    show firstWith (isType u) (if s.section_type == t
        then { s with label := base ++ toString (b + 1) } :: relabelLoop t base (b + 1) rest
        else s :: relabelLoop t base b rest) = _
    cases hm : s.section_type == t with
    | true =>
      simp only [if_pos rfl]
      have hst : s.section_type = t := by simpa using hm
      have hu : isType u s = false := by
        unfold isType
        rw [hst]
        exact beq_eq_false_iff_ne.mpr (fun h => hut h.symm)
      have hu2 : isType u { s with label := base ++ toString (b + 1) } = false := hu
      unfold firstWith
      simp only [List.find?, hu, hu2]
      exact ih (b + 1)
    | false =>
      simp only [Bool.false_eq_true, if_false]
      unfold firstWith
      simp only [List.find?]
      cases hqs : isType u s with
      | true => rfl
      | false => exact ih b

theorem padTo5_length (d : List String) : 4 ≤ (padTo5 d).length := by
  unfold padTo5
  rw [List.length_append, List.length_replicate]
  omega

theorem getD2_set (l : List String) (v w : String) (h : 4 ≤ l.length) :
    ((l.set 2 v).set 3 w).getD 2 "" = v := by
  match l with
  | a :: b :: c :: d :: rest => rfl
  | [] => simp at h
  | [a] => simp at h
  | [a, b] => simp at h
  | [a, b, c] => simp at h

/-- Claim C5: adding a burst to a document with three sub-area-rainfall
and three pluviograph-reference sections yields four of each, rewrites the
third storm-parameters value to 4, and extends the burst-ranges data from
six to eight values. -/
theorem C5_theorem (secs : List Section) (sp br : Section)
    (hsa : countType secs "subarea_rain" = 3)
    (hpr : countType secs "pluvio_ref" = 3)
    (hsp : firstWith (isType "storm_params") secs = some sp)
    (hbr : firstWith (isType "burst_ranges") secs = some br)
    (hbrlen : br.data.length = 6) :
    countType (add_subarea_burst_sections secs) "subarea_rain" = 4 ∧
    countType (add_subarea_burst_sections secs) "pluvio_ref" = 4 ∧
    (firstWith (isType "storm_params") (add_subarea_burst_sections secs)).map
      (fun s => s.data.getD 2 "") = some "4" ∧
    (firstWith (isType "burst_ranges") (add_subarea_burst_sections secs)).map
      (fun s => s.data.length) = some 8 := by
  have d1 : (("subarea_rain" : String) == "subarea_rain") = true := by decide
  have d2 : (("pluvio_ref" : String) == "subarea_rain") = false := by decide
  have d3 : (("subarea_rain" : String) == "pluvio_ref") = false := by decide
  have d4 : (("pluvio_ref" : String) == "pluvio_ref") = true := by decide
  unfold add_subarea_burst_sections
  dsimp only
  refine ⟨?_, ?_, ?_, ?_⟩
  · rw [countType_sync_storm_params, countType_mapFirst]
    · simp only [countType_pyInsert]
      dsimp only
      simp only [d1, d2, Bool.false_eq_true, if_true, if_false]
      omega
    · intro s
      rfl
  · rw [countType_sync_storm_params, countType_mapFirst]
    · simp only [countType_pyInsert]
      dsimp only
      simp only [d3, d4, Bool.false_eq_true, if_true, if_false]
      omega
    · intro s
      rfl
  · unfold sync_storm_params
    rw [firstWith_mapFirst_ne, firstWith_pyInsert, firstWith_pyInsert, hsp]
    dsimp only
    rw [firstWith_relabelLoop _ _ _ (by decide), firstWith_relabelLoop _ _ _ (by decide),
      firstWith_mapFirst_eq, firstWith_mapFirst_ne, firstWith_pyInsert,
      firstWith_pyInsert, hsp]
    any_goals first
      | rfl
      | (intro s; rfl)
      | (intro s hs; exact isType_excl (by decide) s hs)
    simp only [Option.map_some', Option.some.injEq]
    rw [getD2_set _ _ _ (padTo5_length sp.data), countType_mapFirst]
    · simp only [countType_pyInsert]
      dsimp only
      simp only [d1, d2, Bool.false_eq_true, if_true, if_false, Nat.add_zero]
      rw [hsa]
      rfl
    · intro s
      rfl
  · unfold sync_storm_params
    rw [firstWith_mapFirst_ne, firstWith_pyInsert, firstWith_pyInsert, hsp]
    dsimp only
    rw [firstWith_relabelLoop _ _ _ (by decide), firstWith_relabelLoop _ _ _ (by decide),
      firstWith_mapFirst_ne, firstWith_mapFirst_eq, firstWith_pyInsert,
      firstWith_pyInsert, hbr]
    any_goals first
      | rfl
      | (intro s; rfl)
      | (intro s hs; exact isType_excl (by decide) s hs)
    simp only [Option.map_some', Option.some.injEq]
    simp [List.length_append, hbrlen]

/-- Claim C5 witness: the pairing theorem applied to a concrete document
with burst count three. -/
theorem C5_witness :
    countType exC5doc "subarea_rain" = 3 ∧
    countType (add_subarea_burst_sections exC5doc) "subarea_rain" = 4 ∧
    countType (add_subarea_burst_sections exC5doc) "pluvio_ref" = 4 ∧
    (firstWith (isType "storm_params") (add_subarea_burst_sections exC5doc)).map
      (fun s => s.data.getD 2 "") = some "4" ∧
    (firstWith (isType "burst_ranges") (add_subarea_burst_sections exC5doc)).map
      (fun s => s.data.length) = some 8 := by
  have h := C5_theorem exC5doc (mkSP ["1", "24", "3", "1", "0"])
    (mkBR ["0", "8", "8", "16", "16", "24"]) (by decide) (by decide) (by rfl)
    (by rfl) (by decide)
  exact ⟨by decide, h.1, h.2.1, h.2.2.1, h.2.2.2⟩

/-- Claim C6 counterexample: in a document whose two pluviograph sections
hold two and three values, the sections created by the count-driven
resize clone the value-count of the first existing pluviograph section
(two zeros), not that of the last existing one (three values). -/
theorem C6_counterexample :
    (exC6cex.getD 5 secEH).section_type = "pluvio_data" ∧
    (exC6cex.getD 5 secEH).data.length = 3 ∧
    ((sync_sections_to_params exC6cex).getD 6 secEH).section_type = "pluvio_data" ∧
    ((sync_sections_to_params exC6cex).getD 6 secEH).data = ["0", "0"] ∧
    ((sync_sections_to_params exC6cex).getD 6 secEH).data.length
      ≠ (exC6cex.getD 5 secEH).data.length := by
  refine ⟨by decide, by decide, by decide, by decide, by decide⟩

/-- Claim C6 (amended): with the pluviograph count equal to the current
number of pluviograph sections the resize is the identity; raising the
count from two to five appends exactly three pluviograph-data sections at
the end of the pluviograph block, each holding zeros shaped like the
first existing pluviograph section; editing the count back to two removes
exactly those three most recently added sections from the end. -/
theorem C6_theorem :
    sync_sections_to_params exC6aU = exC6aU ∧
    sync_sections_to_params exC6cex = exC6fullU ∧
    sync_sections_to_params exC6downU = exC6aU := by
  refine ⟨by decide, by decide, by decide⟩

end Rorb
